import Mathlib

/-!
Credit-note tax validation (api-facturacion-sv)

Shallow embedding of
`internal/domain/dte/credit_note/validator/strategy/credit_note_tax_strategy.go`.

Modelling conventions.

* Every `float64` field is read through `decimal.NewFromFloat`, after which the code
  only uses exact decimal arithmetic (`Add`, `Sub`, `Mul`, `Abs`, comparisons).  A field
  is therefore represented by the rational number that `decimal.NewFromFloat` yields for
  it; `decimal.NewFromFloat 0.01` is `1/100` and `decimal.NewFromFloat 0.13` is `13/100`.
* `Decimal.InexactFloat64` (used only to fill error parameters) rounds the decimal to
  the nearest `float64`, ties to even (`big.Rat.Float64`); the resulting `float64` is kept
  by its exact value, see `Float64` and `InexactFloat64`.
* `Decimal.IntPart` returns an `int64`: it truncates toward zero and then keeps the low
  64 bits (`big.Int.Int64`).  The wrap-around is modelled explicitly.
* `dte_errors.NewDTEErrorSimple name args...` is a record of the rule name and its
  arguments.  Logging has no effect on control flow and is omitted.
* The tax codes and rates of package `constants` are a parameter `TaxConstants`; the
  `switch` over them is a chain of comparisons in source order.
-/

namespace CreditNote

/-! ## Data model -/

/-- A `float64` produced by converting a decimal: a finite value, kept as the rational it
is exactly equal to, or an infinity. -/
inductive Float64 where
  | finite (value : ℚ)
  | inf (negative : Bool)
  deriving DecidableEq

/-- An argument handed to `NewDTEErrorSimple`: a field value passed as it was read
(`num`), a string, a decimal rendered with `StringFixed(2)` (kept as its integer number of
hundredths), or the `float64` obtained from a decimal with `InexactFloat64` (`float`). -/
inductive Arg where
  | num (q : ℚ)
  | str (s : String)
  | fixed2 (hundredths : ℤ)
  | float (f : Float64)
  deriving DecidableEq

/-- The structured error built by `dte_errors.NewDTEErrorSimple`. -/
structure DTEError where
  code : String
  params : List Arg
  deriving DecidableEq

/-- Constructor `dte_errors.NewDTEErrorSimple`. -/
def NewDTEErrorSimple (code : String) (params : List Arg) : DTEError :=
  ⟨code, params⟩

/-- The tax codes and rates of package `constants`, taken as a parameter. -/
structure TaxConstants where
  TaxIVA : String
  TaxIVAExport : String
  TaxTourism : String
  TaxTourismAirport : String
  TaxFOVIAL : String
  TaxCOTRANS : String
  TaxSpecialOther : String
  TaxIvaAmount : ℚ
  TaxIVAExportAmount : ℚ
  TaxTourismAmount : ℚ
  TaxTourismAirportAmount : ℚ
  TaxFOVIALAmount : ℚ
  TaxCOTRANSAmount : ℚ

/-- A line item of the credit note: the three per-category sale amounts. -/
structure CreditItem where
  TaxedSale : ℚ
  NonSubjectSale : ℚ
  ExemptSale : ℚ
  deriving DecidableEq

/-- A declared tax entry, seen through its getters `GetCode`, `GetValue` and
`GetTotalAmount`. -/
structure Tax where
  code : String
  value : ℚ
  totalAmount : ℚ
  deriving DecidableEq

/-- A payment entry, seen through `GetAmount`. -/
structure PaymentType where
  amount : ℚ
  deriving DecidableEq

/-- The summary block of a credit note. -/
structure CreditSummary where
  TotalTaxed : ℚ
  TotalNonSubject : ℚ
  TotalExempt : ℚ
  SubTotalSales : ℚ
  SubTotal : ℚ
  TaxedDiscount : ℚ
  ExemptDiscount : ℚ
  NonSubjectDiscount : ℚ
  IVAPerception : ℚ
  IVARetention : ℚ
  IncomeRetention : ℚ
  TotalOperation : ℚ
  TotalTaxes : List Tax
  PaymentTypes : List PaymentType
  deriving DecidableEq

/-- The credit-note document. -/
structure CreditNoteModel where
  CreditItems : List CreditItem
  CreditSummary : CreditSummary
  deriving DecidableEq

/-- The strategy object; `Document` is a pointer that may be nil. -/
structure CreditNoteTaxStrategy where
  Document : Option CreditNoteModel

/-! ## Decimal helpers -/

/-- The comparison tolerance `decimal.NewFromFloat(0.01)`. -/
def tolerance : ℚ := 1 / 100

/-- Rounding to the nearest integer, ties to the even one. -/
def roundHalfEven (x : ℚ) : ℤ :=
  let f := ⌊x⌋
  if x - f < 1 / 2 then f
  else if x - f > 1 / 2 then f + 1
  else if f % 2 = 0 then f else f + 1

/-- `Decimal.InexactFloat64`: the `float64` nearest to the decimal, ties to even.  The
binary exponent is that of the decimal, not below that of the subnormal numbers; the
decimal is rounded to a multiple of the unit in the last place of that exponent; a result
of `2^1024` is an infinity. -/
def InexactFloat64 (d : ℚ) : Float64 :=
  if d = 0 then .finite 0
  else
    let e := max (Int.log 2 |d|) (-1022)
    let ulp : ℚ := 2 ^ (e - 52)
    let v := (roundHalfEven (|d| / ulp) : ℚ) * ulp
    if v ≥ 2 ^ 1024 then .inf (decide (d < 0))
    else .finite (if d < 0 then -v else v)

/-- Reinterpretation of an integer as a two's-complement `int64`. -/
def wrapInt64 (u : ℤ) : ℤ :=
  (u + 2 ^ 63) % 2 ^ 64 - 2 ^ 63

/-- Go's `big.Int.Int64`: the low 64 bits of the magnitude as an `int64`, negated (in
`int64`) when the number is negative. -/
def bigIntInt64 (x : ℤ) : ℤ :=
  let v := wrapInt64 (|x| % 2 ^ 64)
  if x < 0 then wrapInt64 (-v) else v

/-- Rescaling a decimal to exponent 0 (`big.Int.Quo` by a power of ten): the fractional
part is dropped, toward zero. -/
def truncToZero (d : ℚ) : ℤ :=
  if 0 ≤ d then ⌊d⌋ else ⌈d⌉

/-- `Decimal.IntPart`: rescale to exponent 0, then `big.Int.Int64`. -/
def IntPart (d : ℚ) : ℤ :=
  bigIntInt64 (truncToZero d)

/-- `Decimal.Round(2)` followed by reading off the hundredths: truncate to three places,
add half a hundredth away from zero, truncate to two places. -/
def roundHundredths (d : ℚ) : ℤ :=
  let t := truncToZero (d * 1000)
  Int.tdiv (if t < 0 then t - 5 else t + 5) 10

/-! ## The validation stages -/

/-- The loop of `validateBaseTotals` accumulating one category over the items. -/
def sumItems (f : CreditItem → ℚ) (items : List CreditItem) : ℚ :=
  items.foldl (fun acc item => acc + f item) 0

/-- Stage 1, `validateBaseTotals`. -/
def validateBaseTotals (d : CreditNoteModel) : Option DTEError :=
  let totalTaxed := sumItems CreditItem.TaxedSale d.CreditItems
  let totalNonSubject := sumItems CreditItem.NonSubjectSale d.CreditItems
  let totalExempt := sumItems CreditItem.ExemptSale d.CreditItems
  let summaryTaxed := d.CreditSummary.TotalTaxed
  let summaryNonSubject := d.CreditSummary.TotalNonSubject
  let summaryExempt := d.CreditSummary.TotalExempt
  if |totalTaxed - summaryTaxed| > tolerance then
    some (NewDTEErrorSimple "InvalidTotalTaxed"
      [.float (InexactFloat64 summaryTaxed), .float (InexactFloat64 totalTaxed)])
  else if d.CreditSummary.SubTotal < d.CreditSummary.TaxedDiscount then
    some (NewDTEErrorSimple "DiscountExceedsSubtotal"
      [.str "TaxedDiscount", .num d.CreditSummary.TaxedDiscount, .num d.CreditSummary.SubTotal])
  else if d.CreditSummary.SubTotal < d.CreditSummary.ExemptDiscount then
    some (NewDTEErrorSimple "DiscountExceedsSubtotal"
      [.str "ExemptDiscount", .num d.CreditSummary.ExemptDiscount, .num d.CreditSummary.SubTotal])
  else if d.CreditSummary.SubTotal < d.CreditSummary.NonSubjectDiscount then
    some (NewDTEErrorSimple "DiscountExceedsSubtotal"
      [.str "NonSubjectDiscount", .num d.CreditSummary.NonSubjectDiscount,
        .num d.CreditSummary.SubTotal])
  else if ¬ totalNonSubject = summaryNonSubject then
    some (NewDTEErrorSimple "InvalidTotalNonSubject"
      [.float (InexactFloat64 totalNonSubject), .float (InexactFloat64 summaryNonSubject)])
  else if ¬ totalExempt = summaryExempt then
    some (NewDTEErrorSimple "InvalidTotalExempt"
      [.float (InexactFloat64 totalExempt), .float (InexactFloat64 summaryExempt)])
  else
    let expectedSubTotalSales := totalTaxed + totalNonSubject + totalExempt
    let actualSubTotalSales := d.CreditSummary.SubTotalSales
    if |expectedSubTotalSales - actualSubTotalSales| > tolerance then
      some (NewDTEErrorSimple "InvalidSubTotalSales"
        [.float (InexactFloat64 expectedSubTotalSales),
          .float (InexactFloat64 actualSubTotalSales)])
    else
      none

/-- The `switch` of `validateIVA`: `none` is the `continue` of `TaxSpecialOther`; a code
that matches no case leaves `expectedTax` at the zero value of `decimal.Decimal`. -/
def expectedTax (K : TaxConstants) (baseTaxed : ℚ) (code : String) : Option ℚ :=
  if code = K.TaxIVA then some (baseTaxed * K.TaxIvaAmount)
  else if code = K.TaxIVAExport then some (baseTaxed * K.TaxIVAExportAmount)
  else if code = K.TaxTourism then some (baseTaxed * K.TaxTourismAmount)
  else if code = K.TaxTourismAirport then some K.TaxTourismAirportAmount
  else if code = K.TaxFOVIAL then some (baseTaxed * K.TaxFOVIALAmount)
  else if code = K.TaxCOTRANS then some K.TaxCOTRANSAmount
  else if code = K.TaxSpecialOther then none
  else some 0

/-- The body of the `for` loop of `validateIVA` for one entry: the error it returns, or
`none` when the loop goes on to the next entry. -/
def checkTax (K : TaxConstants) (baseTaxed : ℚ) (tax : Tax) : Option DTEError :=
  match expectedTax K baseTaxed tax.code with
  | none => none
  | some expected =>
    if |expected - tax.value| > tolerance then
      some (NewDTEErrorSimple "InvalidTaxCalculation"
        [.str tax.code, .float (InexactFloat64 expected), .float (InexactFloat64 tax.value)])
    else
      none

/-- The `for` loop of `validateIVA`: the first entry whose check fails decides. -/
def checkTaxes (K : TaxConstants) (baseTaxed : ℚ) : List Tax → Option DTEError
  | [] => none
  | tax :: rest =>
    match checkTax K baseTaxed tax with
    | some e => some e
    | none => checkTaxes K baseTaxed rest

/-- Stage 2, `validateIVA`. -/
def validateIVA (K : TaxConstants) (d : CreditNoteModel) : Option DTEError :=
  let baseTaxed := d.CreditSummary.TotalTaxed
  if ¬ baseTaxed > 0 then
    if d.CreditSummary.TotalTaxes.length > 0 then
      some (NewDTEErrorSimple "InvalidTaxes" [])
    else
      none
  else
    let baseTaxed := baseTaxed - d.CreditSummary.TaxedDiscount
    if d.CreditSummary.TotalTaxes.length = 0 then
      some (NewDTEErrorSimple "MissingTaxes" [])
    else
      checkTaxes K baseTaxed d.CreditSummary.TotalTaxes

/-- Stage 3, `validatePerception`. -/
def validatePerception (d : CreditNoteModel) : Option DTEError :=
  if d.CreditSummary.IVAPerception ≠ 0 then
    let baseTaxed := d.CreditSummary.TotalTaxed
    let expectedPerception := baseTaxed * (1 / 100)
    let actualPerception := d.CreditSummary.IVAPerception
    if |expectedPerception - actualPerception| > tolerance then
      some (NewDTEErrorSimple "InvalidPerceptionAmount"
        [.fixed2 (roundHundredths actualPerception), .fixed2 (roundHundredths expectedPerception)])
    else
      none
  else
    none

/-- The exported helper `ValidateMonetaryAmount`. -/
def ValidateMonetaryAmount (amount : ℚ) (fieldName : String) : Option DTEError :=
  let scaled := amount * 100
  if |scaled - (IntPart scaled : ℚ)| > tolerance then
    some (NewDTEErrorSimple "InvalidMonetaryAmount" [.str fieldName, .num amount])
  else
    none

/-- The loop of `validateMonetaryAmounts` over the payment entries. -/
def validatePayments : List PaymentType → Option DTEError
  | [] => none
  | payment :: rest =>
    match ValidateMonetaryAmount payment.amount "payment_amount" with
    | some e => some e
    | none => validatePayments rest

/-- Stage 4, `validateMonetaryAmounts`. -/
def validateMonetaryAmounts (d : CreditNoteModel) : Option DTEError :=
  match ValidateMonetaryAmount d.CreditSummary.IVAPerception "iva_perception" with
  | some e => some e
  | none =>
    match ValidateMonetaryAmount d.CreditSummary.TotalOperation "total_operation" with
    | some e => some e
    | none => validatePayments d.CreditSummary.PaymentTypes

/-- The VAT loop of `validateTotalAmounts`: only the first entry with code `TaxIVA` is
compared, then the loop breaks. -/
def checkFirstIVA (K : TaxConstants) (expectedIVA : ℚ) : List Tax → Option DTEError
  | [] => none
  | tax :: rest =>
    if tax.code = K.TaxIVA then
      if |expectedIVA - tax.value| > tolerance then
        some (NewDTEErrorSimple "InvalidIVACalculation"
          [.float (InexactFloat64 expectedIVA), .float (InexactFloat64 tax.value)])
      else
        none
    else
      checkFirstIVA K expectedIVA rest

/-- The last loop of `validateTotalAmounts`, adding every entry's `GetTotalAmount`. -/
def addTaxes (start : ℚ) (taxes : List Tax) : ℚ :=
  taxes.foldl (fun acc t => acc + t.totalAmount) start

/-- The value of `expectedTotalOperation` when `validateTotalAmounts` compares it. -/
def expectedTotalOperation (d : CreditNoteModel) : ℚ :=
  let start := d.CreditSummary.SubTotal
  let start :=
    if d.CreditSummary.TotalTaxed > 0 then
      start + d.CreditSummary.IVAPerception - d.CreditSummary.IVARetention
        - d.CreditSummary.IncomeRetention
    else
      start
  addTaxes start d.CreditSummary.TotalTaxes

/-- Stage 5, `validateTotalAmounts`. -/
def validateTotalAmounts (K : TaxConstants) (d : CreditNoteModel) : Option DTEError :=
  let totalOperation := d.CreditSummary.TotalOperation
  let taxedAmount := d.CreditSummary.TotalTaxed
  let expectedSubTotal := d.CreditSummary.SubTotalSales - d.CreditSummary.TaxedDiscount
    - d.CreditSummary.ExemptDiscount - d.CreditSummary.NonSubjectDiscount
  let actualSubTotal := d.CreditSummary.SubTotal
  if |expectedSubTotal - actualSubTotal| > tolerance then
    some (NewDTEErrorSimple "InvalidSubTotalCalculation"
      [.float (InexactFloat64 expectedSubTotal), .float (InexactFloat64 actualSubTotal)])
  else
    let ivaCheck :=
      if taxedAmount > 0 then
        checkFirstIVA K ((taxedAmount - d.CreditSummary.TaxedDiscount) * (13 / 100))
          d.CreditSummary.TotalTaxes
      else
        none
    match ivaCheck with
    | some e => some e
    | none =>
      if |expectedTotalOperation d - totalOperation| > tolerance then
        some (NewDTEErrorSimple "InvalidTotalOperation"
          [.float (InexactFloat64 totalOperation),
            .float (InexactFloat64 (expectedTotalOperation d))])
      else
        none

/-- The five stages of `Validate` on a non-nil document, in their order. -/
def validateDocument (K : TaxConstants) (d : CreditNoteModel) : Option DTEError :=
  match validateBaseTotals d with
  | some e => some e
  | none =>
    match validateIVA K d with
    | some e => some e
    | none =>
      match validatePerception d with
      | some e => some e
      | none =>
        match validateMonetaryAmounts d with
        | some e => some e
        | none => validateTotalAmounts K d

/-- The method `CreditNoteTaxStrategy.Validate`; `none` is Go's nil error. -/
def Validate (K : TaxConstants) (s : CreditNoteTaxStrategy) : Option DTEError :=
  match s.Document with
  | none => none
  | some d => validateDocument K d

/-! ## Concrete inputs -/

/-- A sample instance of the constants, used for concrete evaluations: seven distinct
codes, the VAT rate 0.13, and sample values for the other rates and fees. -/
def sampleConstants : TaxConstants :=
  { TaxIVA := "20", TaxIVAExport := "C3", TaxTourism := "59", TaxTourismAirport := "71",
    TaxFOVIAL := "D1", TaxCOTRANS := "C8", TaxSpecialOther := "D5",
    TaxIvaAmount := 13 / 100, TaxIVAExportAmount := 0, TaxTourismAmount := 5 / 100,
    TaxTourismAirportAmount := 7, TaxFOVIALAmount := 1 / 5, TaxCOTRANSAmount := 1 / 10 }

/-- A summary with every amount zero and no taxes or payments. -/
def zeroSummary : CreditSummary :=
  { TotalTaxed := 0, TotalNonSubject := 0, TotalExempt := 0, SubTotalSales := 0,
    SubTotal := 0, TaxedDiscount := 0, ExemptDiscount := 0, NonSubjectDiscount := 0,
    IVAPerception := 0, IVARetention := 0, IncomeRetention := 0, TotalOperation := 0,
    TotalTaxes := [], PaymentTypes := [] }

/-- Items with taxed sales 100.00 and 50.00, `TotalTaxed = 150.00`, no discounts,
retentions or perception, one VAT entry of the given value and the given total. -/
def vatDocument (vat total : ℚ) : CreditNoteModel :=
  { CreditItems := [⟨100, 0, 0⟩, ⟨50, 0, 0⟩],
    CreditSummary :=
      { zeroSummary with
        TotalTaxed := 150, SubTotalSales := 150, SubTotal := 150, TotalOperation := total,
        TotalTaxes := [⟨"20", vat, vat⟩] } }

/-- No items and all totals zero, but one declared VAT entry. -/
def taxesWithoutTaxedDocument : CreditNoteModel :=
  { CreditItems := [], CreditSummary := { zeroSummary with TotalTaxes := [⟨"20", 0, 0⟩] } }

/-- One item with taxed sale 100.00, consistent totals, and no tax entry. -/
def missingTaxesDocument : CreditNoteModel :=
  { CreditItems := [⟨100, 0, 0⟩],
    CreditSummary :=
      { zeroSummary with TotalTaxed := 100, SubTotalSales := 100, SubTotal := 100,
                         TotalOperation := 100 } }

/-! ## Properties of documents used in the statements -/

/-- An amount that is a whole number of cents. -/
def wholeCents (a : ℚ) : Prop :=
  ((⌊a * 100⌋ : ℤ) : ℚ) = a * 100

/-- The invariants of a document holding exactly: category sums, subtotal of sales,
discounts bounded by the subtotal, tax presence, every tax entry on its formula (with the
VAT rate 0.13 and total amount equal to value), perception, final subtotal, total to pay,
and whole cents for the perception, the total and the payments. -/
def ExactInvariants (K : TaxConstants) (d : CreditNoteModel) : Prop :=
  (d.CreditItems.map CreditItem.TaxedSale).sum = d.CreditSummary.TotalTaxed ∧
  (d.CreditItems.map CreditItem.NonSubjectSale).sum = d.CreditSummary.TotalNonSubject ∧
  (d.CreditItems.map CreditItem.ExemptSale).sum = d.CreditSummary.TotalExempt ∧
  d.CreditSummary.SubTotalSales = d.CreditSummary.TotalTaxed
    + d.CreditSummary.TotalNonSubject + d.CreditSummary.TotalExempt ∧
  (d.CreditSummary.TaxedDiscount ≤ d.CreditSummary.SubTotal ∧
    d.CreditSummary.ExemptDiscount ≤ d.CreditSummary.SubTotal ∧
    d.CreditSummary.NonSubjectDiscount ≤ d.CreditSummary.SubTotal) ∧
  (d.CreditSummary.TotalTaxed = 0 → d.CreditSummary.TotalTaxes = []) ∧
  (d.CreditSummary.TotalTaxed > 0 → d.CreditSummary.TotalTaxes ≠ []) ∧
  K.TaxIvaAmount = 13 / 100 ∧
  (∀ t ∈ d.CreditSummary.TotalTaxes,
    t.code ∈ [K.TaxIVA, K.TaxIVAExport, K.TaxTourism, K.TaxTourismAirport, K.TaxFOVIAL,
      K.TaxCOTRANS, K.TaxSpecialOther] ∧
    (∀ x, expectedTax K (d.CreditSummary.TotalTaxed - d.CreditSummary.TaxedDiscount) t.code
      = some x → t.value = x) ∧
    t.totalAmount = t.value) ∧
  (d.CreditSummary.IVAPerception = 0 ∨
    d.CreditSummary.IVAPerception = 1 / 100 * d.CreditSummary.TotalTaxed) ∧
  d.CreditSummary.SubTotal = d.CreditSummary.SubTotalSales - d.CreditSummary.TaxedDiscount
    - d.CreditSummary.ExemptDiscount - d.CreditSummary.NonSubjectDiscount ∧
  d.CreditSummary.TotalOperation =
    (if d.CreditSummary.TotalTaxed > 0 then
      d.CreditSummary.SubTotal + d.CreditSummary.IVAPerception - d.CreditSummary.IVARetention
        - d.CreditSummary.IncomeRetention + (d.CreditSummary.TotalTaxes.map Tax.value).sum
    else d.CreditSummary.SubTotal) ∧
  wholeCents d.CreditSummary.IVAPerception ∧
  wholeCents d.CreditSummary.TotalOperation ∧
  ∀ p ∈ d.CreditSummary.PaymentTypes, wholeCents p.amount

/-- The checked amounts fit the `int64` that `IntPart` returns: fewer than `2^63` cents in
magnitude. -/
def CentsInRange (d : CreditNoteModel) : Prop :=
  |d.CreditSummary.IVAPerception * 100| < 2 ^ 63 ∧
  |d.CreditSummary.TotalOperation * 100| < 2 ^ 63 ∧
  ∀ p ∈ d.CreditSummary.PaymentTypes, |p.amount * 100| < 2 ^ 63

/-- A taxed total of -100.00 next to a non-subject total of 200.00, with a VAT entry on
its formula (0.13 * -100.00) and every other invariant exact. -/
def negativeTaxedDocument : CreditNoteModel :=
  { CreditItems := [⟨-100, 200, 0⟩],
    CreditSummary :=
      { zeroSummary with
        TotalTaxed := -100, TotalNonSubject := 200, SubTotalSales := 100, SubTotal := 100,
        TotalOperation := 100, TotalTaxes := [⟨"20", -13, -13⟩] } }

/-- A taxed discount of 150.00 against a subtotal of 100.00, category totals consistent. -/
def taxedDiscountDocument : CreditNoteModel :=
  { CreditItems := [⟨100, 0, 0⟩],
    CreditSummary :=
      { zeroSummary with TotalTaxed := 100, SubTotalSales := 100, SubTotal := 100,
                         TaxedDiscount := 150 } }

/-- A taxed discount of 5.00 against a subtotal of 0.00 in a document whose declared
taxed total (1.00) does not match its items (none). -/
def discountAndTaxedMismatchDocument : CreditNoteModel :=
  { CreditItems := [], CreditSummary := { zeroSummary with TotalTaxed := 1, TaxedDiscount := 5 } }

/-- One item with non-subject sale 10.00 and a declared `TotalNonSubject` of 10.01. -/
def nonSubjectRoundingDocument : CreditNoteModel :=
  { CreditItems := [⟨0, 10, 0⟩],
    CreditSummary :=
      { zeroSummary with TotalNonSubject := 1001 / 100, SubTotalSales := 10, SubTotal := 10,
                         TotalOperation := 10 } }

/-- One item with exempt sale 10.00 and a declared `TotalExempt` of 10.01. -/
def exemptRoundingDocument : CreditNoteModel :=
  { CreditItems := [⟨0, 0, 10⟩],
    CreditSummary :=
      { zeroSummary with TotalExempt := 1001 / 100, SubTotalSales := 10, SubTotal := 10,
                         TotalOperation := 10 } }

/-- The end-to-end document with a second tax entry whose code ("ZZ") is none of the
seven codes of `sampleConstants` and whose value is 5.00. -/
def unknownCodeDocument : CreditNoteModel :=
  { CreditItems := [⟨100, 0, 0⟩, ⟨50, 0, 0⟩],
    CreditSummary :=
      { zeroSummary with
        TotalTaxed := 150, SubTotalSales := 150, SubTotal := 150, TotalOperation := 349 / 2,
        TotalTaxes := [⟨"20", 39 / 2, 39 / 2⟩, ⟨"ZZ", 5, 5⟩] } }

/-- One item with taxed sale 100.00, a declared `TotalTaxed` of 100.01 and a declared
`SubTotalSales` of 99.99: each is 0.01 away from the items, 0.02 from the other. -/
def toleranceStackDocument : CreditNoteModel :=
  { CreditItems := [⟨100, 0, 0⟩],
    CreditSummary :=
      { zeroSummary with
        TotalTaxed := 10001 / 100, SubTotalSales := 9999 / 100, SubTotal := 9999 / 100,
        TotalOperation := 11299 / 100, TotalTaxes := [⟨"20", 13, 13⟩] } }

/-- Sales of 100.00 with a taxed discount of 60.00, hence a final subtotal of 40.00. -/
def largeDiscountDocument : CreditNoteModel :=
  { CreditItems := [⟨100, 0, 0⟩],
    CreditSummary :=
      { zeroSummary with TotalTaxed := 100, SubTotalSales := 100, SubTotal := 40,
                         TaxedDiscount := 60 } }

/-- Items with taxed sales 0.1 and 0.2, the declared `TotalTaxed` 0.30000000000000004
(the `float64` sum of 0.1 and 0.2) and one VAT entry of 5.00. -/
def floatSumDocument : CreditNoteModel :=
  { CreditItems := [⟨1 / 10, 0, 0⟩, ⟨1 / 5, 0, 0⟩],
    CreditSummary :=
      { zeroSummary with
        TotalTaxed := 30000000000000004 / 100000000000000000, SubTotalSales := 3 / 10,
        SubTotal := 3 / 10, TotalOperation := 53 / 10, TotalTaxes := [⟨"20", 5, 5⟩] } }

/-- The document with its tax list replaced. -/
def withTotalTaxes (d : CreditNoteModel) (taxes : List Tax) : CreditNoteModel :=
  { d with CreditSummary := { d.CreditSummary with TotalTaxes := taxes } }

end CreditNote

/-!
Authentication service

Shallow embedding of `internal/domain/auth/service/strategies/auth_service.go`.

* A Go `error` is a value of `GoError`: the two sentinels the code tests with
  `errors.Is`, errors built by `shared_error.NewFormattedGeneralServiceError`, any other
  error with its text, and errors wrapping another one.  The texts the source does not
  fix, and `strings.ToLower`, are the parameter `Externals`.
* A Go result pair `(value, err)` is an `Except GoError`; an `error` result alone is an
  `Option GoError`, `none` being nil.
* The collaborators (repository, strategies, token service, cache) are records of
  functions; `Login` returns, next to its two results, the list of the calls it made to
  them, in order.  `context.Context` and logging are omitted.
* The claim, user and branch types are type parameters.
-/

namespace Auth

/-! ## Errors and strings -/

/-- A Go `error` value as this service sees it. -/
inductive GoError where
  | ErrUserNotFound
  | ErrInvalidData
  | service (svc operation kind : String) (params : List String)
  | plain (text : String)
  | wrapped (text : String) (inner : GoError)
  deriving DecidableEq

/-- Constructor `shared_error.NewFormattedGeneralServiceError`. -/
def NewFormattedGeneralServiceError (svc operation kind : String) (params : List String) :
    GoError :=
  .service svc operation kind params

/-- `errors.Is err target`: `err` or an error it wraps is `target`. -/
def errorsIs (target : GoError) : GoError → Bool
  | .wrapped text inner => decide (GoError.wrapped text inner = target) || errorsIs target inner
  | err => decide (err = target)

/-- What the source leaves to its libraries: `strings.ToLower` and the texts of the
sentinels and of the service errors. -/
structure Externals where
  ToLower : String → String
  userNotFoundText : String
  invalidDataText : String
  serviceText : String → String → String → List String → String

/-- The method `err.Error()`. -/
def GoError.Error (X : Externals) : GoError → String
  | .ErrUserNotFound => X.userNotFoundText
  | .ErrInvalidData => X.invalidDataText
  | .service svc operation kind params => X.serviceText svc operation kind params
  | .plain text => text
  | .wrapped text _ => text

/-- `strings.Contains s substr`: `substr` occurs in `s` as a contiguous run. -/
def Contains (s substr : String) : Bool :=
  decide (substr.data <:+: s.data)

/-- The function `isDuplicatedEntryErr`. -/
def isDuplicatedEntryErr (X : Externals) (err : GoError) : Bool :=
  let errMsg := X.ToLower (err.Error X)
  errorsIs .ErrInvalidData err ||
    Contains errMsg "duplicate entry" ||
    Contains errMsg "unique constraint" ||
    Contains errMsg "violates unique" ||
    Contains errMsg "unique key constraint"

/-- The function `handleGormError`. -/
def handleGormError (X : Externals) (operation : String) (err : GoError) : GoError :=
  if errorsIs .ErrInvalidData err then
    NewFormattedGeneralServiceError "AuthService" operation "InvalidData" []
  else if isDuplicatedEntryErr X err then
    let errMsg := err.Error X
    if Contains errMsg "nit" then
      NewFormattedGeneralServiceError "AuthService" operation "DuplicatedEntry" ["nit"]
    else if Contains errMsg "email" then
      NewFormattedGeneralServiceError "AuthService" operation "DuplicatedEntry" ["email"]
    else if Contains errMsg "phone" then
      NewFormattedGeneralServiceError "AuthService" operation "DuplicatedEntry" ["phone"]
    else if Contains errMsg "nrc" then
      NewFormattedGeneralServiceError "AuthService" operation "DuplicatedEntry" ["nrc"]
    else
      err
  else
    err

/-! ## Credentials and collaborators -/

/-- The upstream credentials `models.HaciendaCredentials`. -/
structure HaciendaCredentials where
  Username : String
  Password : String
  deriving DecidableEq

/-- The credentials `models.AuthCredentials`; `MHCredentials` is a pointer. -/
structure AuthCredentials where
  APIKey : String
  APISecret : String
  MHCredentials : Option HaciendaCredentials
  deriving DecidableEq

/-- The methods of `auth.AuthRepositoryPort` that the modelled operations call. -/
structure AuthRepositoryPort (User Branch : Type) where
  GetAuthTypeByApiKey : String → Except GoError String
  Create : User → Option GoError
  GetByNIT : String → Except GoError User
  GetBranchByBranchID : Nat → Except GoError Branch

/-- The methods of `auth.AuthStrategy` that `Login` calls. -/
structure AuthStrategy (Claims : Type) where
  ValidateCredentials : AuthCredentials → Option GoError
  Authenticate : AuthCredentials → Except GoError Claims
  GetTokenLifetime : AuthCredentials → Except GoError Int

/-- The method of `ports.TokenManager` that `Login` calls. -/
structure TokenManager (Claims : Type) where
  GenerateToken : Claims → Int → Except GoError String

/-- The method of `ports.CacheManager` that `Login` calls. -/
structure CacheManager where
  SetCredentials : String → Option HaciendaCredentials → Int → Option GoError

/-- The service `AuthService`; `strategies` is the map from auth type to strategy. -/
structure AuthService (Claims User Branch : Type) where
  strategies : String → Option (AuthStrategy Claims)
  authRepo : AuthRepositoryPort User Branch
  tokenService : TokenManager Claims
  cacheService : CacheManager

/-- A call made by `Login` to a collaborator, with its arguments; a strategy is named by
the auth type it was looked up with. -/
inductive Call (Claims : Type) where
  | GetAuthTypeByApiKey (apiKey : String)
  | ValidateCredentials (authType : String) (credentials : AuthCredentials)
  | Authenticate (authType : String) (credentials : AuthCredentials)
  | GetTokenLifetime (authType : String) (credentials : AuthCredentials)
  | GenerateToken (claims : Claims) (lifetime : Int)
  | SetCredentials (token : String) (credentials : Option HaciendaCredentials) (ttl : Int)

/-- The two results of `Login` and the calls it made. -/
structure LoginResult (Claims : Type) where
  token : String
  err : Option GoError
  calls : List (Call Claims)

/-! ## Operations -/

/-- The function `credentialsExists`. -/
def credentialsExists (credentials : AuthCredentials) : Bool :=
  credentials.APIKey != "" && credentials.APISecret != "" &&
    match credentials.MHCredentials with
    | none => false
    | some mh => mh.Username != "" && mh.Password != ""

/-- The method `AuthService.Login`. -/
def Login {Claims User Branch : Type} (s : AuthService Claims User Branch)
    (credentials : AuthCredentials) : LoginResult Claims :=
  if ¬ credentialsExists credentials then
    ⟨"", some (NewFormattedGeneralServiceError "AuthService" "Login" "MissingCredentials" []), []⟩
  else
    let c1 : List (Call Claims) := [.GetAuthTypeByApiKey credentials.APIKey]
    match s.authRepo.GetAuthTypeByApiKey credentials.APIKey with
    | .error err =>
      if errorsIs .ErrUserNotFound err then
        ⟨"", some (NewFormattedGeneralServiceError "AuthService" "Login" "NotFound" []), c1⟩
      else
        ⟨"", some err, c1⟩
    | .ok authType =>
      match s.strategies authType with
      | none =>
        ⟨"", some (NewFormattedGeneralServiceError "AuthService" "Login" "ServerError"
          [authType]), c1⟩
      | some strategy =>
        let c2 := c1 ++ [.ValidateCredentials authType credentials]
        match strategy.ValidateCredentials credentials with
        | some err => ⟨"", some err, c2⟩
        | none =>
          let c3 := c2 ++ [.Authenticate authType credentials]
          match strategy.Authenticate credentials with
          | .error err => ⟨"", some err, c3⟩
          | .ok claims =>
            let c4 := c3 ++ [.GetTokenLifetime authType credentials]
            match strategy.GetTokenLifetime credentials with
            | .error err => ⟨"", some err, c4⟩
            | .ok tokenLifetime =>
              let c5 := c4 ++ [.GenerateToken claims tokenLifetime]
              match s.tokenService.GenerateToken claims tokenLifetime with
              | .error err => ⟨"", some err, c5⟩
              | .ok token =>
                let c6 := c5 ++ [.SetCredentials token credentials.MHCredentials tokenLifetime]
                match s.cacheService.SetCredentials token credentials.MHCredentials
                    tokenLifetime with
                | some err => ⟨"", some err, c6⟩
                | none => ⟨token, none, c6⟩

/-- The method `AuthService.Create`. -/
def Create {Claims User Branch : Type} (X : Externals) (s : AuthService Claims User Branch)
    (user : User) : Option GoError :=
  match s.authRepo.Create user with
  | some err => some (handleGormError X "Create" err)
  | none => none

/-- The method `AuthService.GetByNIT`. -/
def GetByNIT {Claims User Branch : Type} (X : Externals) (s : AuthService Claims User Branch)
    (nit : String) : Except GoError User :=
  match s.authRepo.GetByNIT nit with
  | .error err => .error (handleGormError X "GetByNIT" err)
  | .ok user => .ok user

/-- The method `AuthService.GetBranchByBranchID`. -/
def GetBranchByBranchID {Claims User Branch : Type} (X : Externals)
    (s : AuthService Claims User Branch) (branchID : Nat) : Except GoError Branch :=
  match s.authRepo.GetBranchByBranchID branchID with
  | .error err => .error (handleGormError X "GetBranchByBranchID" err)
  | .ok branch => .ok branch

/-- The calls of a `Login` that runs to the end. -/
def fullTrace {Claims : Type} (c : AuthCredentials) (authType : String) (claims : Claims)
    (lifetime : Int) (token : String) : List (Call Claims) :=
  [.GetAuthTypeByApiKey c.APIKey, .ValidateCredentials authType c, .Authenticate authType c,
    .GetTokenLifetime authType c, .GenerateToken claims lifetime,
    .SetCredentials token c.MHCredentials lifetime]

/-- Whether a call is a write to the cache. -/
def Call.isSetCredentials {Claims : Type} : Call Claims → Bool
  | .SetCredentials _ _ _ => true
  | _ => false

/-! ## Concrete inputs -/

/-- Sample externals: ASCII lower-casing and sample texts. -/
def sampleExternals : Externals :=
  { ToLower := fun s => String.mk (s.data.map Char.toLower),
    userNotFoundText := "user not found",
    invalidDataText := "unsupported data",
    serviceText := fun svc operation kind _ => svc ++ "." ++ operation ++ ": " ++ kind }

/-- Complete credentials. -/
def sampleCredentials : AuthCredentials :=
  { APIKey := "key-1", APISecret := "secret-1",
    MHCredentials := some { Username := "06141234567890", Password := "pw" } }

/-- The sample credentials with an empty API secret. -/
def emptySecretCredentials : AuthCredentials :=
  { sampleCredentials with APISecret := "" }

/-- A strategy that accepts everything, with claims "claims-1" and a lifetime of 3600. -/
def sampleStrategy : AuthStrategy String :=
  { ValidateCredentials := fun _ => none,
    Authenticate := fun _ => .ok "claims-1",
    GetTokenLifetime := fun _ => .ok 3600 }

/-- A service whose repository answers with the given lookup result and creation result,
with one strategy registered under "standard", a token service returning "token-1" and
a cache that accepts every write. -/
def sampleService (lookup : Except GoError String) (created : Option GoError) :
    AuthService String Unit Unit :=
  { strategies := fun authType => if authType = "standard" then some sampleStrategy else none,
    authRepo :=
      { GetAuthTypeByApiKey := fun _ => lookup,
        Create := fun _ => created,
        GetByNIT := fun _ => .ok (),
        GetBranchByBranchID := fun _ => .ok () },
    tokenService := { GenerateToken := fun _ _ => .ok "token-1" },
    cacheService := { SetCredentials := fun _ _ _ => none } }

/-- A MySQL duplicate-key error on the `nit` column. -/
def duplicateNitError : GoError :=
  .plain "Error 1062: Duplicate entry '0614' for key 'users.nit'"

/-- A storage error that is not a duplicate-key violation but mentions `nit`. -/
def connectionError : GoError :=
  .plain "dial tcp: connection refused while reading nit"

end Auth

/-!
Retention input

Shallow embedding of
`internal/domain/dte/retention/retention_models/input_retention_data.go`.  A retention
item is seen through `DocumentType.GetValue()`, an integer; the other fields of
`InputRetentionData` are not read by the modelled method.
-/

namespace Retention

/-- A retention item, seen through `item.DocumentType.GetValue()`. -/
structure RetentionItem where
  DocumentType : Int
  deriving DecidableEq

/-- The input `InputRetentionData`, reduced to the items `IsAllPhysical` ranges over. -/
structure InputRetentionData where
  RetentionItems : List RetentionItem
  deriving DecidableEq

/-- The method `InputRetentionData.IsAllPhysical`: the flag starts true and is cleared
by every item whose document type is 2. -/
def IsAllPhysical (i : InputRetentionData) : Bool :=
  i.RetentionItems.foldl
    (fun isAllPhysical item => if item.DocumentType = 2 then false else isAllPhysical) true

end Retention

namespace CreditNote

/-! ## Auxiliary lemmas -/

/-- Rounding picks the integer that is less than a half away. -/
theorem roundHalfEven_eq (x : ℚ) (m : ℤ) (h : |x - m| < 1 / 2) : roundHalfEven x = m := by
  rw [abs_lt] at h
  unfold roundHalfEven
  simp only
  by_cases hx : (m : ℚ) ≤ x
  · have hf : ⌊x⌋ = m := by
      rw [Int.floor_eq_iff]
      constructor
      · exact hx
      · linarith [h.2]
    rw [hf, if_pos (by linarith [h.2])]
  · have hf : ⌊x⌋ = m - 1 := by
      rw [Int.floor_eq_iff]
      push_cast
      constructor
      · linarith [h.1]
      · push_neg at hx; linarith
    rw [hf]
    push_cast
    rw [if_neg (by linarith [h.1]), if_pos (by linarith [h.1])]
    ring

/-- The binary exponent of a number between two consecutive powers of two. -/
theorem log_two_eq (x : ℚ) (e : ℤ) (h1 : (2 : ℚ) ^ e ≤ x) (h2 : x < (2 : ℚ) ^ (e + 1)) :
    Int.log 2 x = e := by
  have hpos : 0 < x := lt_of_lt_of_le (by positivity) h1
  have a : e ≤ Int.log 2 x := by
    have := (Int.zpow_le_iff_le_log (b := 2) (by norm_num) hpos (x := e)).mp
    exact this (by exact_mod_cast h1)
  have b : Int.log 2 x < e + 1 := by
    have := (Int.lt_zpow_iff_log_lt (b := 2) (by norm_num) hpos (x := e + 1)).mp
    exact this (by exact_mod_cast h2)
  omega

/-- The conversion of a decimal in a normal binade whose nearest multiple of the unit in
the last place is `m` units. -/
theorem InexactFloat64_eq (d : ℚ) (e m : ℤ) (hpos : 0 < d)
    (h1 : (2 : ℚ) ^ e ≤ d) (h2 : d < (2 : ℚ) ^ (e + 1)) (he : -1022 ≤ e)
    (hm : |d / 2 ^ (e - 52) - m| < 1 / 2)
    (hfin : (m : ℚ) * 2 ^ (e - 52) < 2 ^ 1024) :
    InexactFloat64 d = .finite (m * 2 ^ (e - 52)) := by
  unfold InexactFloat64
  rw [if_neg (ne_of_gt hpos)]
  simp only [abs_of_pos hpos, log_two_eq d e h1 h2, max_eq_left he,
    roundHalfEven_eq _ m hm]
  rw [if_neg (not_le.mpr hfin), if_neg (not_lt.mpr (le_of_lt hpos))]

/-- The conversion of zero. -/
theorem InexactFloat64_zero : InexactFloat64 0 = .finite 0 := by
  unfold InexactFloat64
  rw [if_pos rfl]

/-- The decimal 1 is a `float64`. -/
theorem InexactFloat64_one : InexactFloat64 1 = .finite 1 := by
  rw [InexactFloat64_eq 1 0 (2 ^ 52) (by norm_num) (by norm_num) (by norm_num) (by norm_num)
    (by norm_num) (by norm_num)]
  norm_num

/-- The decimal 5 is a `float64`. -/
theorem InexactFloat64_five : InexactFloat64 5 = .finite 5 := by
  rw [InexactFloat64_eq 5 2 (5 * 2 ^ 50) (by norm_num) (by norm_num) (by norm_num) (by norm_num)
    (by norm_num) (by norm_num)]
  norm_num

/-- The decimal 10 is a `float64`. -/
theorem InexactFloat64_ten : InexactFloat64 10 = .finite 10 := by
  rw [InexactFloat64_eq 10 3 (5 * 2 ^ 50) (by norm_num) (by norm_num) (by norm_num)
    (by norm_num) (by norm_num) (by norm_num)]
  norm_num

/-- The decimal 20 is a `float64`. -/
theorem InexactFloat64_twenty : InexactFloat64 20 = .finite 20 := by
  rw [InexactFloat64_eq 20 4 (5 * 2 ^ 50) (by norm_num) (by norm_num) (by norm_num)
    (by norm_num) (by norm_num) (by norm_num)]
  norm_num

/-- The decimal 19.5 is a `float64`. -/
theorem InexactFloat64_19_5 : InexactFloat64 (39 / 2) = .finite (39 / 2) := by
  rw [InexactFloat64_eq (39 / 2) 4 (39 * 2 ^ 47) (by norm_num) (by norm_num) (by norm_num)
    (by norm_num) (by norm_num) (by norm_num)]
  norm_num

/-- The `float64` nearest to 10.01. -/
theorem InexactFloat64_10_01 :
    InexactFloat64 (1001 / 100) = .finite (5635129033747333 / 562949953421312) := by
  rw [InexactFloat64_eq (1001 / 100) 3 5635129033747333 (by norm_num) (by norm_num)
    (by norm_num) (by norm_num) (by rw [abs_lt]; constructor <;> norm_num) (by norm_num)]
  norm_num

/-- The `float64` nearest to 0.0390000000000000052; it prints as 0.03900000000000001. -/
theorem InexactFloat64_0_039 :
    InexactFloat64 (97500000000000013 / 2500000000000000000)
      = .finite (1405123083739595 / 36028797018963968) := by
  rw [InexactFloat64_eq (97500000000000013 / 2500000000000000000) (-5) 5620492334958380
    (by norm_num) (by norm_num) (by norm_num) (by norm_num)
    (by rw [abs_lt]; constructor <;> norm_num) (by norm_num)]
  norm_num

theorem sumItems_eq_sum (f : CreditItem → ℚ) (items : List CreditItem) :
    sumItems f items = (items.map f).sum := by
  have h : ∀ (l : List CreditItem) (a : ℚ),
      l.foldl (fun acc item => acc + f item) a = a + (l.map f).sum := by
    intro l
    induction l with
    | nil => intro a; simp
    | cons x xs ih => intro a; simp [ih, add_assoc]
  simp [sumItems, h]

theorem addTaxes_eq_sum (start : ℚ) (taxes : List Tax) :
    addTaxes start taxes = start + (taxes.map Tax.totalAmount).sum := by
  unfold addTaxes
  induction taxes generalizing start with
  | nil => simp
  | cons x xs ih => simp [ih, add_assoc]

/-- The error names stage 1 can produce. -/
theorem validateBaseTotals_code (d : CreditNoteModel) (e : DTEError)
    (h : validateBaseTotals d = some e) :
    e.code ∈ ["InvalidTotalTaxed", "DiscountExceedsSubtotal", "InvalidTotalNonSubject",
      "InvalidTotalExempt", "InvalidSubTotalSales"] := by
  unfold validateBaseTotals at h
  simp only [NewDTEErrorSimple] at h
  split_ifs at h <;> (cases h; simp)

theorem checkTax_code (K : TaxConstants) (b : ℚ) (t : Tax) (e : DTEError)
    (h : checkTax K b t = some e) : e.code = "InvalidTaxCalculation" := by
  unfold checkTax at h
  split at h
  · simp at h
  · split_ifs at h
    · cases h; rfl

theorem checkTaxes_code (K : TaxConstants) (b : ℚ) (taxes : List Tax) (e : DTEError)
    (h : checkTaxes K b taxes = some e) : e.code = "InvalidTaxCalculation" := by
  induction taxes with
  | nil => simp [checkTaxes] at h
  | cons t rest ih =>
    unfold checkTaxes at h
    split at h
    · next e1 h1 => cases h; exact checkTax_code K b t _ h1
    · exact ih h

/-- The error names stage 2 can produce. -/
theorem validateIVA_code (K : TaxConstants) (d : CreditNoteModel) (e : DTEError)
    (h : validateIVA K d = some e) :
    e.code ∈ ["InvalidTaxes", "MissingTaxes", "InvalidTaxCalculation"] := by
  unfold validateIVA at h
  simp only [NewDTEErrorSimple] at h
  split at h
  · split at h
    · cases h; simp
    · simp at h
  · split at h
    · cases h; simp
    · simp [checkTaxes_code K _ _ e h]

/-- Stage 3 produces only `InvalidPerceptionAmount`. -/
theorem validatePerception_code (d : CreditNoteModel) (e : DTEError)
    (h : validatePerception d = some e) : e.code = "InvalidPerceptionAmount" := by
  unfold validatePerception at h
  simp only [NewDTEErrorSimple] at h
  split_ifs at h
  cases h; rfl

/-- Stage 3 as a single conditional. -/
theorem validatePerception_eq (d : CreditNoteModel) :
    validatePerception d =
      if d.CreditSummary.IVAPerception ≠ 0 ∧
          |1 / 100 * d.CreditSummary.TotalTaxed - d.CreditSummary.IVAPerception| > 1 / 100 then
        some (NewDTEErrorSimple "InvalidPerceptionAmount"
          [.fixed2 (roundHundredths d.CreditSummary.IVAPerception),
            .fixed2 (roundHundredths (d.CreditSummary.TotalTaxed * (1 / 100)))])
      else none := by
  have hm : d.CreditSummary.TotalTaxed * (1 / 100) = 1 / 100 * d.CreditSummary.TotalTaxed :=
    mul_comm _ _
  unfold validatePerception
  simp only [tolerance]
  rw [← hm]
  by_cases h0 : d.CreditSummary.IVAPerception ≠ 0
  · by_cases h1 : |d.CreditSummary.TotalTaxed * (1 / 100) - d.CreditSummary.IVAPerception|
        > 1 / 100
    · rw [if_pos h0, if_pos h1, if_pos ⟨h0, h1⟩]
    · rw [if_pos h0, if_neg h1, if_neg (fun h => h1 h.2)]
  · rw [if_neg h0, if_neg (fun h => h0 h.1)]

theorem ValidateMonetaryAmount_code (a : ℚ) (f : String) (e : DTEError)
    (h : ValidateMonetaryAmount a f = some e) : e.code = "InvalidMonetaryAmount" := by
  unfold ValidateMonetaryAmount at h
  simp only [NewDTEErrorSimple] at h
  split_ifs at h
  cases h; rfl

theorem validatePayments_code (ps : List PaymentType) (e : DTEError)
    (h : validatePayments ps = some e) : e.code = "InvalidMonetaryAmount" := by
  induction ps with
  | nil => simp [validatePayments] at h
  | cons p rest ih =>
    unfold validatePayments at h
    split at h
    · next e1 h1 => cases h; exact ValidateMonetaryAmount_code _ _ _ h1
    · exact ih h

/-- Stage 4 produces only `InvalidMonetaryAmount`. -/
theorem validateMonetaryAmounts_code (d : CreditNoteModel) (e : DTEError)
    (h : validateMonetaryAmounts d = some e) : e.code = "InvalidMonetaryAmount" := by
  unfold validateMonetaryAmounts at h
  split at h
  · next e1 h1 => cases h; exact ValidateMonetaryAmount_code _ _ _ h1
  · split at h
    · next e1 h1 => cases h; exact ValidateMonetaryAmount_code _ _ _ h1
    · exact validatePayments_code _ _ h

theorem checkFirstIVA_code (K : TaxConstants) (x : ℚ) (taxes : List Tax) (e : DTEError)
    (h : checkFirstIVA K x taxes = some e) : e.code = "InvalidIVACalculation" := by
  induction taxes with
  | nil => simp [checkFirstIVA] at h
  | cons t rest ih =>
    unfold checkFirstIVA at h
    simp only [NewDTEErrorSimple] at h
    split_ifs at h
    · cases h; rfl
    · exact ih h

/-- The error names stage 5 can produce. -/
theorem validateTotalAmounts_code (K : TaxConstants) (d : CreditNoteModel) (e : DTEError)
    (h : validateTotalAmounts K d = some e) :
    e.code ∈ ["InvalidSubTotalCalculation", "InvalidIVACalculation",
      "InvalidTotalOperation"] := by
  unfold validateTotalAmounts at h
  simp only [NewDTEErrorSimple] at h
  split at h
  · cases h; simp
  · split at h
    · next e1 h2 =>
      cases h
      split at h2
      · simp [checkFirstIVA_code K _ _ _ h2]
      · simp at h2
    · split at h
      · cases h; simp
      · simp at h

/-- Unfolding of `Validate` on a non-nil document. -/
theorem Validate_some (K : TaxConstants) (d : CreditNoteModel) :
    Validate K ⟨some d⟩ = validateDocument K d := rfl

/-- The result of the five stages is nil exactly when every stage reports none. -/
theorem validateDocument_eq_none_iff (K : TaxConstants) (d : CreditNoteModel) :
    validateDocument K d = none ↔
      validateBaseTotals d = none ∧ validateIVA K d = none ∧ validatePerception d = none ∧
        validateMonetaryAmounts d = none ∧ validateTotalAmounts K d = none := by
  unfold validateDocument
  cases h1 : validateBaseTotals d <;> cases h2 : validateIVA K d <;>
    cases h3 : validatePerception d <;> cases h4 : validateMonetaryAmounts d <;>
    cases h5 : validateTotalAmounts K d <;> simp

/-- An error of the five stages is the error of one of them. -/
theorem validateDocument_eq_some (K : TaxConstants) (d : CreditNoteModel) (e : DTEError)
    (h : validateDocument K d = some e) :
    validateBaseTotals d = some e ∨ validateIVA K d = some e ∨ validatePerception d = some e ∨
      validateMonetaryAmounts d = some e ∨ validateTotalAmounts K d = some e := by
  unfold validateDocument at h
  split at h
  · next e1 h1 => left; rw [h1, h]
  · split at h
    · next e1 h1 => right; left; rw [h1, h]
    · split at h
      · next e1 h1 => right; right; left; rw [h1, h]
      · split at h
        · next e1 h1 => right; right; right; left; rw [h1, h]
        · right; right; right; right; exact h

/-- When stage 1 passes, an error of stage 2 is the result. -/
theorem validateDocument_of_IVA (K : TaxConstants) (d : CreditNoteModel) (e : DTEError)
    (h1 : validateBaseTotals d = none) (h2 : validateIVA K d = some e) :
    validateDocument K d = some e := by
  unfold validateDocument
  rw [h1, h2]

/-- Stage 1 reports `InvalidTotalTaxed` only from its first comparison. -/
theorem validateBaseTotals_InvalidTotalTaxed (d : CreditNoteModel) (e : DTEError)
    (h : validateBaseTotals d = some e) (hc : e.code = "InvalidTotalTaxed") :
    |sumItems CreditItem.TaxedSale d.CreditItems - d.CreditSummary.TotalTaxed| > tolerance := by
  by_contra hn
  unfold validateBaseTotals at h
  simp only [NewDTEErrorSimple] at h
  rw [if_neg hn] at h
  split_ifs at h <;> (cases h; simp at hc)

/-- Stage 1 passes exactly when none of its seven comparisons fires. -/
theorem validateBaseTotals_eq_none_iff (d : CreditNoteModel) :
    validateBaseTotals d = none ↔
      ¬ |sumItems CreditItem.TaxedSale d.CreditItems - d.CreditSummary.TotalTaxed| > 1 / 100 ∧
      ¬ d.CreditSummary.SubTotal < d.CreditSummary.TaxedDiscount ∧
      ¬ d.CreditSummary.SubTotal < d.CreditSummary.ExemptDiscount ∧
      ¬ d.CreditSummary.SubTotal < d.CreditSummary.NonSubjectDiscount ∧
      sumItems CreditItem.NonSubjectSale d.CreditItems = d.CreditSummary.TotalNonSubject ∧
      sumItems CreditItem.ExemptSale d.CreditItems = d.CreditSummary.TotalExempt ∧
      ¬ |sumItems CreditItem.TaxedSale d.CreditItems
          + sumItems CreditItem.NonSubjectSale d.CreditItems
          + sumItems CreditItem.ExemptSale d.CreditItems
          - d.CreditSummary.SubTotalSales| > 1 / 100 := by
  unfold validateBaseTotals
  simp only [NewDTEErrorSimple, tolerance]
  split_ifs <;> simp_all

/-- `IntPart` is the identity on integers that fit an `int64`. -/
theorem bigIntInt64_of_range (n : ℤ) (h1 : -2 ^ 63 ≤ n) (h2 : n < 2 ^ 63) :
    bigIntInt64 n = n := by
  unfold bigIntInt64 wrapInt64
  norm_num at h1 h2 ⊢
  rcases lt_or_le n 0 with hn | hn
  · rw [if_pos hn, abs_of_neg hn]
    omega
  · rw [if_neg (not_lt.mpr hn), abs_of_nonneg hn]
    omega

theorem truncToZero_intCast (n : ℤ) : truncToZero (n : ℚ) = n := by
  unfold truncToZero
  split_ifs <;> simp

/-- The helper as a single comparison. -/
theorem ValidateMonetaryAmount_eq_none_iff (a : ℚ) (f : String) :
    ValidateMonetaryAmount a f = none ↔ |a * 100 - (IntPart (a * 100) : ℚ)| ≤ 1 / 100 := by
  unfold ValidateMonetaryAmount
  simp only [tolerance]
  split_ifs with h
  · simp only [reduceCtorEq, false_iff, not_le]; exact h
  · simp only [true_iff]; exact not_lt.mp h

/-- A whole number of cents within the `int64` range passes the helper. -/
theorem ValidateMonetaryAmount_cents (n : ℤ) (f : String) (h1 : -2 ^ 63 ≤ n) (h2 : n < 2 ^ 63) :
    ValidateMonetaryAmount ((n : ℚ) / 100) f = none := by
  rw [ValidateMonetaryAmount_eq_none_iff]
  have e : (n : ℚ) / 100 * 100 = (n : ℚ) := by ring
  rw [e, IntPart, truncToZero_intCast, bigIntInt64_of_range n h1 h2]
  simp

theorem validatePayments_eq_none_iff (ps : List PaymentType) :
    validatePayments ps = none ↔
      ∀ p ∈ ps, ValidateMonetaryAmount p.amount "payment_amount" = none := by
  induction ps with
  | nil => simp [validatePayments]
  | cons p rest ih =>
    unfold validatePayments
    cases h : ValidateMonetaryAmount p.amount "payment_amount" with
    | none => simp [ih, h]
    | some e => simp [h]

/-- Stage 4 passes exactly when every checked amount passes the helper. -/
theorem validateMonetaryAmounts_eq_none_iff (d : CreditNoteModel) :
    validateMonetaryAmounts d = none ↔
      ValidateMonetaryAmount d.CreditSummary.IVAPerception "iva_perception" = none ∧
      ValidateMonetaryAmount d.CreditSummary.TotalOperation "total_operation" = none ∧
      ∀ p ∈ d.CreditSummary.PaymentTypes,
        ValidateMonetaryAmount p.amount "payment_amount" = none := by
  unfold validateMonetaryAmounts
  cases h1 : ValidateMonetaryAmount d.CreditSummary.IVAPerception "iva_perception" with
  | some e => simp
  | none =>
    cases h2 : ValidateMonetaryAmount d.CreditSummary.TotalOperation "total_operation" with
    | some e => simp
    | none => simp [validatePayments_eq_none_iff]

theorem checkTaxes_eq_none_iff (K : TaxConstants) (b : ℚ) (taxes : List Tax) :
    checkTaxes K b taxes = none ↔ ∀ t ∈ taxes, checkTax K b t = none := by
  induction taxes with
  | nil => simp [checkTaxes]
  | cons t rest ih =>
    unfold checkTaxes
    cases h : checkTax K b t with
    | none => simp [ih, h]
    | some e => simp [h]

/-- Stage 2 passes exactly when the tax list is empty for a non-positive taxed total, and
non-empty with every entry passing its check for a positive one. -/
theorem validateIVA_eq_none_iff (K : TaxConstants) (d : CreditNoteModel) :
    validateIVA K d = none ↔
      (¬ d.CreditSummary.TotalTaxed > 0 → d.CreditSummary.TotalTaxes = []) ∧
      (d.CreditSummary.TotalTaxed > 0 → d.CreditSummary.TotalTaxes ≠ [] ∧
        ∀ t ∈ d.CreditSummary.TotalTaxes,
          checkTax K (d.CreditSummary.TotalTaxed - d.CreditSummary.TaxedDiscount) t = none) := by
  unfold validateIVA
  simp only [NewDTEErrorSimple]
  by_cases hpos : d.CreditSummary.TotalTaxed > 0
  · rw [if_neg (not_not.mpr hpos)]
    by_cases hl : d.CreditSummary.TotalTaxes = []
    · simp [hl, hpos]
    · have hlen : ¬ d.CreditSummary.TotalTaxes.length = 0 := by
        simpa [List.length_eq_zero] using hl
      rw [if_neg hlen, checkTaxes_eq_none_iff]
      simp [hpos, hl]
  · rw [if_pos hpos]
    by_cases hl : d.CreditSummary.TotalTaxes = []
    · simp [hl, hpos]
    · have hlen : d.CreditSummary.TotalTaxes.length > 0 := List.length_pos.mpr hl
      rw [if_pos hlen]
      simp [hpos, hl]

/-- One entry passes its check exactly when it is skipped or within tolerance. -/
theorem checkTax_eq_none_iff (K : TaxConstants) (b : ℚ) (t : Tax) :
    checkTax K b t = none ↔ ∀ x, expectedTax K b t.code = some x → |x - t.value| ≤ 1 / 100 := by
  unfold checkTax
  simp only [NewDTEErrorSimple, tolerance]
  cases h : expectedTax K b t.code with
  | none => simp
  | some x =>
    simp only [Option.some.injEq, forall_eq']
    split_ifs with hx
    · simp only [reduceCtorEq, false_iff, not_le]; exact hx
    · simp only [true_iff]; exact not_lt.mp hx

/-- The VAT re-check passes when every VAT entry is within tolerance. -/
theorem checkFirstIVA_eq_none (K : TaxConstants) (x : ℚ) (taxes : List Tax)
    (h : ∀ t ∈ taxes, t.code = K.TaxIVA → |x - t.value| ≤ 1 / 100) :
    checkFirstIVA K x taxes = none := by
  induction taxes with
  | nil => rfl
  | cons t rest ih =>
    unfold checkFirstIVA
    simp only [tolerance]
    split_ifs with hc hx
    · exact absurd (h t (List.mem_cons_self _ _) hc) (not_le.mpr hx)
    · rfl
    · exact ih (fun u hu => h u (List.mem_cons_of_mem _ hu))

/-- Stage 5 passes exactly when its three comparisons pass. -/
theorem validateTotalAmounts_eq_none_iff (K : TaxConstants) (d : CreditNoteModel) :
    validateTotalAmounts K d = none ↔
      |d.CreditSummary.SubTotalSales - d.CreditSummary.TaxedDiscount
          - d.CreditSummary.ExemptDiscount - d.CreditSummary.NonSubjectDiscount
          - d.CreditSummary.SubTotal| ≤ 1 / 100 ∧
      (d.CreditSummary.TotalTaxed > 0 →
        checkFirstIVA K ((d.CreditSummary.TotalTaxed - d.CreditSummary.TaxedDiscount) * (13 / 100))
          d.CreditSummary.TotalTaxes = none) ∧
      |expectedTotalOperation d - d.CreditSummary.TotalOperation| ≤ 1 / 100 := by
  unfold validateTotalAmounts
  simp only [NewDTEErrorSimple, tolerance]
  by_cases h1 : |d.CreditSummary.SubTotalSales - d.CreditSummary.TaxedDiscount
          - d.CreditSummary.ExemptDiscount - d.CreditSummary.NonSubjectDiscount
          - d.CreditSummary.SubTotal| > 1 / 100
  · rw [if_pos h1]
    simp only [reduceCtorEq, false_iff, not_and]
    intro h; exact absurd h (not_le.mpr h1)
  · rw [if_neg h1]
    by_cases hp : d.CreditSummary.TotalTaxed > 0
    · rw [if_pos hp]
      cases hc : checkFirstIVA K
          ((d.CreditSummary.TotalTaxed - d.CreditSummary.TaxedDiscount) * (13 / 100))
          d.CreditSummary.TotalTaxes with
      | some e => simp [hp]
      | none =>
        by_cases h3 : |expectedTotalOperation d - d.CreditSummary.TotalOperation| > 1 / 100
        · simp only [if_pos h3, reduceCtorEq, false_iff, not_and]
          intro _ _; exact not_le.mpr h3
        · simp only [if_neg h3, true_iff]
          exact ⟨not_lt.mp h1, fun _ => trivial, not_lt.mp h3⟩
    · rw [if_neg hp]
      by_cases h3 : |expectedTotalOperation d - d.CreditSummary.TotalOperation| > 1 / 100
      · simp only [if_pos h3, reduceCtorEq, false_iff, not_and]
        intro _ _; exact not_le.mpr h3
      · simp only [if_neg h3, true_iff]
        exact ⟨not_lt.mp h1, fun h => absurd h hp, not_lt.mp h3⟩

/-- A whole number of cents within the `int64` range passes the helper. -/
theorem ValidateMonetaryAmount_wholeCents (a : ℚ) (f : String) (hw : wholeCents a)
    (hr : |a * 100| < 2 ^ 63) : ValidateMonetaryAmount a f = none := by
  unfold wholeCents at hw
  have ha : a = ((⌊a * 100⌋ : ℤ) : ℚ) / 100 := by rw [hw]; ring
  have hb : |((⌊a * 100⌋ : ℤ) : ℚ)| < 2 ^ 63 := by rw [hw]; exact hr
  have hc : |(⌊a * 100⌋ : ℤ)| < 2 ^ 63 := by exact_mod_cast hb
  rw [abs_lt] at hc
  rw [ha]
  exact ValidateMonetaryAmount_cents _ f (le_of_lt hc.1) hc.2

/-- Within the `int64` range the helper is the comparison against the truncation. -/
theorem ValidateMonetaryAmount_iff_of_fits (a : ℚ) (f : String)
    (h1 : -2 ^ 63 ≤ truncToZero (a * 100)) (h2 : truncToZero (a * 100) < 2 ^ 63) :
    ValidateMonetaryAmount a f = none ↔
      |a * 100 - ((truncToZero (a * 100) : ℤ) : ℚ)| ≤ 1 / 100 := by
  rw [ValidateMonetaryAmount_eq_none_iff, IntPart, bigIntInt64_of_range _ h1 h2]

/-- The amount 12.34 passes the helper. -/
theorem ValidateMonetaryAmount_12_34 (f : String) :
    ValidateMonetaryAmount (1234 / 100) f = none := by
  have e : (1234 / 100 : ℚ) = ((1234 : ℤ) : ℚ) / 100 := by norm_num
  rw [e]
  exact ValidateMonetaryAmount_cents 1234 f (by norm_num) (by norm_num)

/-- The amount 12.345 fails the helper: its hundredfold 1234.5 is 0.5 away from 1234. -/
theorem ValidateMonetaryAmount_12_345 (f : String) :
    ValidateMonetaryAmount (12345 / 1000) f
      = some (NewDTEErrorSimple "InvalidMonetaryAmount" [.str f, .num (12345 / 1000)]) := by
  have ht : truncToZero (12345 / 1000 * 100) = 1234 := by
    unfold truncToZero
    rw [if_pos (by norm_num), Int.floor_eq_iff]
    norm_num
  have hi : IntPart (12345 / 1000 * 100) = 1234 := by
    rw [IntPart, ht]
    exact bigIntInt64_of_range 1234 (by norm_num) (by norm_num)
  unfold ValidateMonetaryAmount
  simp only [hi, tolerance]
  rw [if_pos]
  rw [gt_iff_lt, lt_abs]
  left
  norm_num

/-- The loop of stage 2 stops at the first failing entry. -/
theorem checkTaxes_append (K : TaxConstants) (b : ℚ) (pre post : List Tax) (t : Tax)
    (e : DTEError) (hpre : ∀ u ∈ pre, checkTax K b u = none) (ht : checkTax K b t = some e) :
    checkTaxes K b (pre ++ t :: post) = some e := by
  induction pre with
  | nil =>
    simp only [List.nil_append]
    unfold checkTaxes
    rw [ht]
  | cons u rest ih =>
    simp only [List.cons_append]
    unfold checkTaxes
    rw [hpre u (List.mem_cons_self _ _)]
    exact ih (fun v hv => hpre v (List.mem_cons_of_mem _ hv))

/-- Stage 1 passes on the end-to-end document, whatever the VAT entry and total. -/
theorem vatDocument_base (vat total : ℚ) : validateBaseTotals (vatDocument vat total) = none := by
  rw [validateBaseTotals_eq_none_iff]
  norm_num [vatDocument, zeroSummary, sumItems]

/-- The end-to-end document of the spec (VAT 19.50, total 169.50) validates. -/
theorem vatDocument_valid :
    Validate sampleConstants ⟨some (vatDocument (39 / 2) (339 / 2))⟩ = none := by
  rw [Validate_some, validateDocument_eq_none_iff, validateIVA_eq_none_iff,
    validatePerception_eq, validateMonetaryAmounts_eq_none_iff, validateTotalAmounts_eq_none_iff]
  refine ⟨vatDocument_base _ _, ?_, ?_, ⟨?_, ?_, ?_⟩, ?_, ?_, ?_⟩
  · norm_num [vatDocument, zeroSummary, checkTax_eq_none_iff, expectedTax, sampleConstants]
  · norm_num [vatDocument, zeroSummary]
  · exact (by norm_num [vatDocument, zeroSummary] :
      (vatDocument (39 / 2) (339 / 2)).CreditSummary.IVAPerception = ((0 : ℤ) : ℚ) / 100) ▸
      ValidateMonetaryAmount_cents 0 _ (by norm_num) (by norm_num)
  · exact (by norm_num [vatDocument, zeroSummary] :
      (vatDocument (39 / 2) (339 / 2)).CreditSummary.TotalOperation = ((16950 : ℤ) : ℚ) / 100) ▸
      ValidateMonetaryAmount_cents 16950 _ (by norm_num) (by norm_num)
  · simp [vatDocument, zeroSummary]
  · norm_num [vatDocument, zeroSummary]
  · intro _
    apply checkFirstIVA_eq_none
    norm_num [vatDocument, zeroSummary, sampleConstants]
  · norm_num [expectedTotalOperation, addTaxes, vatDocument, zeroSummary]

/-- An error of the five stages, together with the stages that passed before it. -/
theorem validateDocument_cases (K : TaxConstants) (d : CreditNoteModel) (e : DTEError)
    (h : validateDocument K d = some e) :
    validateBaseTotals d = some e ∨
    (validateBaseTotals d = none ∧ validateIVA K d = some e) ∨
    (validateBaseTotals d = none ∧ validateIVA K d = none ∧ validatePerception d = some e) ∨
    (validateBaseTotals d = none ∧ validateIVA K d = none ∧ validatePerception d = none ∧
      validateMonetaryAmounts d = some e) ∨
    (validateBaseTotals d = none ∧ validateIVA K d = none ∧ validatePerception d = none ∧
      validateMonetaryAmounts d = none ∧ validateTotalAmounts K d = some e) := by
  unfold validateDocument at h
  split at h
  · next e1 h1 => left; rw [h1, h]
  · next h1 =>
    split at h
    · next e2 h2 => right; left; exact ⟨h1, by rw [h2, h]⟩
    · next h2 =>
      split at h
      · next e3 h3 => right; right; left; exact ⟨h1, h2, by rw [h3, h]⟩
      · next h3 =>
        split at h
        · next e4 h4 => right; right; right; left; exact ⟨h1, h2, h3, by rw [h4, h]⟩
        · next h4 => right; right; right; right; exact ⟨h1, h2, h3, h4, h⟩

/-- The check of an entry whose code matches no case of the `switch`: it is compared with
the zero value. -/
theorem checkTax_unknown_code (K : TaxConstants) (b : ℚ) (t : Tax)
    (hc : t.code ∉ [K.TaxIVA, K.TaxIVAExport, K.TaxTourism, K.TaxTourismAirport, K.TaxFOVIAL,
      K.TaxCOTRANS, K.TaxSpecialOther]) :
    checkTax K b t =
      if |0 - t.value| > 1 / 100 then
        some (NewDTEErrorSimple "InvalidTaxCalculation"
          [.str t.code, .float (InexactFloat64 0), .float (InexactFloat64 t.value)])
      else none := by
  simp only [List.mem_cons, List.mem_singleton, not_or, List.not_mem_nil, or_false] at hc
  obtain ⟨h1, h2, h3, h4, h5, h6, h7⟩ := hc
  unfold checkTax expectedTax
  rw [if_neg h1, if_neg h2, if_neg h3, if_neg h4, if_neg h5, if_neg h6, if_neg h7]
  rfl

/-- One step of the loop of stage 2. -/
theorem checkTaxes_cons (K : TaxConstants) (b : ℚ) (u : Tax) (l : List Tax) :
    checkTaxes K b (u :: l) =
      match checkTax K b u with
      | some e => some e
      | none => checkTaxes K b l := rfl

/-- The loop of stage 2 over a concatenation. -/
theorem checkTaxes_append_eq (K : TaxConstants) (b : ℚ) (pre rest : List Tax) :
    checkTaxes K b (pre ++ rest) =
      match checkTaxes K b pre with
      | some e => some e
      | none => checkTaxes K b rest := by
  induction pre with
  | nil => simp [checkTaxes]
  | cons u us ih =>
    simp only [List.cons_append, checkTaxes_cons]
    cases h : checkTax K b u with
    | some e => rfl
    | none => exact ih

/-- An entry with the code of the `continue` case is skipped, whatever its value. -/
theorem checkTax_specialOther (K : TaxConstants) (b : ℚ) (t : Tax)
    (hdist : K.TaxSpecialOther ∉ [K.TaxIVA, K.TaxIVAExport, K.TaxTourism, K.TaxTourismAirport,
      K.TaxFOVIAL, K.TaxCOTRANS])
    (hc : t.code = K.TaxSpecialOther) : checkTax K b t = none := by
  simp only [List.mem_cons, List.mem_singleton, not_or, List.not_mem_nil, or_false] at hdist
  obtain ⟨h1, h2, h3, h4, h5, h6⟩ := hdist
  unfold checkTax expectedTax
  rw [hc, if_neg h1, if_neg h2, if_neg h3, if_neg h4, if_neg h5, if_neg h6, if_pos rfl]

/-- The document with both declared totals 0.01 away from the items is accepted. -/
theorem toleranceStackDocument_valid :
    Validate sampleConstants ⟨some toleranceStackDocument⟩ = none := by
  rw [Validate_some, validateDocument_eq_none_iff, validateBaseTotals_eq_none_iff,
    validateIVA_eq_none_iff, validatePerception_eq, validateMonetaryAmounts_eq_none_iff,
    validateTotalAmounts_eq_none_iff]
  refine ⟨⟨?_, ?_, ?_, ?_, ?_, ?_, ?_⟩, ?_, ?_, ⟨?_, ?_, ?_⟩, ?_, ?_, ?_⟩
  · norm_num [toleranceStackDocument, zeroSummary, sumItems, abs_le]
  · norm_num [toleranceStackDocument, zeroSummary]
  · norm_num [toleranceStackDocument, zeroSummary]
  · norm_num [toleranceStackDocument, zeroSummary]
  · norm_num [toleranceStackDocument, zeroSummary, sumItems]
  · norm_num [toleranceStackDocument, zeroSummary, sumItems]
  · norm_num [toleranceStackDocument, zeroSummary, sumItems, abs_le]
  · norm_num [toleranceStackDocument, zeroSummary, checkTax_eq_none_iff, expectedTax,
      sampleConstants, abs_le]
  · norm_num [toleranceStackDocument, zeroSummary]
  · exact (by norm_num [toleranceStackDocument, zeroSummary] :
      toleranceStackDocument.CreditSummary.IVAPerception = ((0 : ℤ) : ℚ) / 100) ▸
      ValidateMonetaryAmount_cents 0 _ (by norm_num) (by norm_num)
  · exact (by norm_num [toleranceStackDocument, zeroSummary] :
      toleranceStackDocument.CreditSummary.TotalOperation = ((11299 : ℤ) : ℚ) / 100) ▸
      ValidateMonetaryAmount_cents 11299 _ (by norm_num) (by norm_num)
  · simp [toleranceStackDocument, zeroSummary]
  · norm_num [toleranceStackDocument, zeroSummary]
  · intro _
    apply checkFirstIVA_eq_none
    norm_num [toleranceStackDocument, zeroSummary, sampleConstants, abs_le]
  · norm_num [expectedTotalOperation, addTaxes, toleranceStackDocument, zeroSummary]

/-- Stage 1 reports `DiscountExceedsSubtotal` only for a discount above `SubTotal`, and
names that discount. -/
theorem validateBaseTotals_DiscountExceedsSubtotal (d : CreditNoteModel) (e : DTEError)
    (h : validateBaseTotals d = some e) (hc : e.code = "DiscountExceedsSubtotal") :
    (e.params = [.str "TaxedDiscount", .num d.CreditSummary.TaxedDiscount,
        .num d.CreditSummary.SubTotal] ∧
      d.CreditSummary.SubTotal < d.CreditSummary.TaxedDiscount) ∨
    (e.params = [.str "ExemptDiscount", .num d.CreditSummary.ExemptDiscount,
        .num d.CreditSummary.SubTotal] ∧
      d.CreditSummary.SubTotal < d.CreditSummary.ExemptDiscount) ∨
    (e.params = [.str "NonSubjectDiscount", .num d.CreditSummary.NonSubjectDiscount,
        .num d.CreditSummary.SubTotal] ∧
      d.CreditSummary.SubTotal < d.CreditSummary.NonSubjectDiscount) := by
  unfold validateBaseTotals at h
  simp only [NewDTEErrorSimple] at h
  split_ifs at h with h0 h1 h2 h3 h4 h5 h6
  · cases h; simp at hc
  · cases h; exact Or.inl ⟨rfl, h1⟩
  · cases h; exact Or.inr (Or.inl ⟨rfl, h2⟩)
  · cases h; exact Or.inr (Or.inr ⟨rfl, h3⟩)
  · cases h; simp at hc
  · cases h; simp at hc
  · cases h; simp at hc

/-- The result of `Validate` on the document with a 60.00 discount on sales of 100.00. -/
theorem largeDiscountDocument_result (K : TaxConstants) :
    Validate K ⟨some largeDiscountDocument⟩ = some (NewDTEErrorSimple "DiscountExceedsSubtotal"
      [.str "TaxedDiscount", .num 60, .num 40]) := by
  rw [Validate_some]
  unfold validateDocument validateBaseTotals
  norm_num [largeDiscountDocument, zeroSummary, sumItems, tolerance]

/-- Stage 5 reports `InvalidIVACalculation` only from its VAT loop, run for a positive
taxed total. -/
theorem validateTotalAmounts_InvalidIVACalculation (K : TaxConstants) (d : CreditNoteModel)
    (e : DTEError) (h : validateTotalAmounts K d = some e)
    (hc : e.code = "InvalidIVACalculation") :
    d.CreditSummary.TotalTaxed > 0 ∧
      checkFirstIVA K ((d.CreditSummary.TotalTaxed - d.CreditSummary.TaxedDiscount) * (13 / 100))
        d.CreditSummary.TotalTaxes = some e := by
  unfold validateTotalAmounts at h
  simp only [NewDTEErrorSimple] at h
  split at h
  · cases h; simp at hc
  · split at h
    · next e1 h2 =>
      cases h
      split at h2
      · next hp => exact ⟨hp, h2⟩
      · simp at h2
    · split at h
      · cases h; simp at hc
      · simp at h

/-! ## The claims -/

/-- Claim C2: on a non-nil document `Validate` is fail-fast over the five stages in the
order base totals, tax validation, perception, monetary precision, total amounts: it
returns exactly the error of the first stage that reports one, and it returns nil if and
only if all five stages report none. -/
theorem Validate_fail_fast (K : TaxConstants) (d : CreditNoteModel) :
    (∀ e, validateBaseTotals d = some e → Validate K ⟨some d⟩ = some e) ∧
    (∀ e, validateBaseTotals d = none → validateIVA K d = some e →
      Validate K ⟨some d⟩ = some e) ∧
    (∀ e, validateBaseTotals d = none → validateIVA K d = none →
      validatePerception d = some e → Validate K ⟨some d⟩ = some e) ∧
    (∀ e, validateBaseTotals d = none → validateIVA K d = none →
      validatePerception d = none → validateMonetaryAmounts d = some e →
      Validate K ⟨some d⟩ = some e) ∧
    (∀ e, validateBaseTotals d = none → validateIVA K d = none →
      validatePerception d = none → validateMonetaryAmounts d = none →
      validateTotalAmounts K d = some e → Validate K ⟨some d⟩ = some e) ∧
    (Validate K ⟨some d⟩ = none ↔
      validateBaseTotals d = none ∧ validateIVA K d = none ∧ validatePerception d = none ∧
        validateMonetaryAmounts d = none ∧ validateTotalAmounts K d = none) := by
  rw [Validate_some]
  unfold validateDocument
  refine ⟨?_, ?_, ?_, ?_, ?_, ?_⟩
  · intro e h1; simp [h1]
  · intro e h1 h2; simp [h1, h2]
  · intro e h1 h2 h3; simp [h1, h2, h3]
  · intro e h1 h2 h3 h4; simp [h1, h2, h3, h4]
  · intro e h1 h2 h3 h4 h5; simp [h1, h2, h3, h4, h5]
  · cases h1 : validateBaseTotals d <;> cases h2 : validateIVA K d <;>
      cases h3 : validatePerception d <;> cases h4 : validateMonetaryAmounts d <;>
      cases h5 : validateTotalAmounts K d <;> simp

/-- Claim C5: when the base-totals stage reports no violation, taxes declared with
`TotalTaxed = 0` give `InvalidTaxes`, and `TotalTaxed > 0` with no tax entry gives
`MissingTaxes`. -/
theorem Validate_tax_presence (K : TaxConstants) (d : CreditNoteModel)
    (hbase : validateBaseTotals d = none) :
    (d.CreditSummary.TotalTaxed = 0 → d.CreditSummary.TotalTaxes ≠ [] →
      Validate K ⟨some d⟩ = some (NewDTEErrorSimple "InvalidTaxes" [])) ∧
    (d.CreditSummary.TotalTaxed > 0 → d.CreditSummary.TotalTaxes = [] →
      Validate K ⟨some d⟩ = some (NewDTEErrorSimple "MissingTaxes" [])) := by
  rw [Validate_some]
  unfold validateDocument
  rw [hbase]
  constructor
  · intro h0 hne
    have : validateIVA K d = some (NewDTEErrorSimple "InvalidTaxes" []) := by
      have hl : d.CreditSummary.TotalTaxes.length > 0 := List.length_pos.mpr hne
      simp [validateIVA, h0, hl]
    simp [this]
  · intro hpos hnil
    have : validateIVA K d = some (NewDTEErrorSimple "MissingTaxes" []) := by
      simp [validateIVA, hpos, hnil]
    simp [this]

/-- Claim C5, witness: both branches at concrete documents. -/
theorem Validate_tax_presence_witness :
    Validate sampleConstants ⟨some taxesWithoutTaxedDocument⟩
        = some (NewDTEErrorSimple "InvalidTaxes" []) ∧
      Validate sampleConstants ⟨some missingTaxesDocument⟩
        = some (NewDTEErrorSimple "MissingTaxes" []) :=
  ⟨(Validate_tax_presence sampleConstants taxesWithoutTaxedDocument
      (by norm_num [validateBaseTotals, taxesWithoutTaxedDocument, zeroSummary, sumItems,
        tolerance])).1 rfl (by simp [taxesWithoutTaxedDocument]),
   (Validate_tax_presence sampleConstants missingTaxesDocument
      (by norm_num [validateBaseTotals, missingTaxesDocument, zeroSummary, sumItems,
        tolerance])).2 (by norm_num [missingTaxesDocument, zeroSummary]) rfl⟩

/-- Claim C10: the perception stage returns `InvalidPerceptionAmount` if and only if
`IVAPerception` is not 0 and differs from `0.01 * TotalTaxed` (the declared total, no
discount applied) by more than 0.01; otherwise, and in particular when `IVAPerception`
is 0, it reports no violation. -/
theorem validatePerception_iff (d : CreditNoteModel) :
    ((∃ e, validatePerception d = some e ∧ e.code = "InvalidPerceptionAmount") ↔
      (d.CreditSummary.IVAPerception ≠ 0 ∧
        |1 / 100 * d.CreditSummary.TotalTaxed - d.CreditSummary.IVAPerception| > 1 / 100)) ∧
    (validatePerception d = none ↔
      ¬ (d.CreditSummary.IVAPerception ≠ 0 ∧
        |1 / 100 * d.CreditSummary.TotalTaxed - d.CreditSummary.IVAPerception| > 1 / 100)) ∧
    (d.CreditSummary.IVAPerception = 0 → validatePerception d = none) := by
  rw [validatePerception_eq]
  by_cases h : d.CreditSummary.IVAPerception ≠ 0 ∧
      |1 / 100 * d.CreditSummary.TotalTaxed - d.CreditSummary.IVAPerception| > 1 / 100
  · rw [if_pos h]
    refine ⟨⟨fun _ => h, fun _ => ⟨_, rfl, rfl⟩⟩, ⟨fun h1 => (by cases h1), fun h1 => absurd h h1⟩,
      fun h0 => absurd h0 h.1⟩
  · rw [if_neg h]
    refine ⟨⟨fun ⟨e, h1, _⟩ => (by cases h1), fun h1 => absurd h1 h⟩, ⟨fun _ => h, fun _ => rfl⟩,
      fun _ => rfl⟩

/-- Claim C8: on a non-nil document `Validate` returns `InvalidTotalTaxed` if and only if
the sum of the items' taxed sales differs from `TotalTaxed` by more than 0.01 in exact
arithmetic; a difference of exactly 0.01 is not reported, and with no items the error is
reported exactly when `|TotalTaxed| > 0.01`. -/
theorem Validate_InvalidTotalTaxed_iff (K : TaxConstants) (d : CreditNoteModel) :
    ((∃ e, Validate K ⟨some d⟩ = some e ∧ e.code = "InvalidTotalTaxed") ↔
      |(d.CreditItems.map CreditItem.TaxedSale).sum - d.CreditSummary.TotalTaxed| > 1 / 100) ∧
    (|(d.CreditItems.map CreditItem.TaxedSale).sum - d.CreditSummary.TotalTaxed| = 1 / 100 →
      ¬ ∃ e, Validate K ⟨some d⟩ = some e ∧ e.code = "InvalidTotalTaxed") ∧
    (d.CreditItems = [] →
      ((∃ e, Validate K ⟨some d⟩ = some e ∧ e.code = "InvalidTotalTaxed") ↔
        |d.CreditSummary.TotalTaxed| > 1 / 100)) := by
  have main : (∃ e, Validate K ⟨some d⟩ = some e ∧ e.code = "InvalidTotalTaxed") ↔
      |(d.CreditItems.map CreditItem.TaxedSale).sum - d.CreditSummary.TotalTaxed| > 1 / 100 := by
    rw [Validate_some, ← sumItems_eq_sum]
    constructor
    · rintro ⟨e, he, hc⟩
      rcases validateDocument_eq_some K d e he with h | h | h | h | h
      · exact validateBaseTotals_InvalidTotalTaxed d e h hc
      · have := validateIVA_code K d e h
        rw [hc] at this; simp at this
      · have := validatePerception_code d e h
        rw [hc] at this; simp at this
      · have := validateMonetaryAmounts_code d e h
        rw [hc] at this; simp at this
      · have := validateTotalAmounts_code K d e h
        rw [hc] at this; simp at this
    · intro h
      refine ⟨NewDTEErrorSimple "InvalidTotalTaxed"
        [.float (InexactFloat64 d.CreditSummary.TotalTaxed),
          .float (InexactFloat64 (sumItems CreditItem.TaxedSale d.CreditItems))],
        ?_, rfl⟩
      have hb : validateBaseTotals d = some (NewDTEErrorSimple "InvalidTotalTaxed"
          [.float (InexactFloat64 d.CreditSummary.TotalTaxed),
            .float (InexactFloat64 (sumItems CreditItem.TaxedSale d.CreditItems))]) := by
        unfold validateBaseTotals
        simp only [NewDTEErrorSimple, tolerance]
        rw [if_pos h]
      unfold validateDocument
      rw [hb]
  refine ⟨main, ?_, ?_⟩
  · intro heq hex
    have := main.mp hex
    rw [heq] at this
    exact lt_irrefl _ this
  · intro hnil
    rw [main, hnil]
    simp

/-- Claim C3: when `Validate` returns nil on a non-nil document whose tax entries have
total amount equal to their value, the declared `TotalOperation` is within 0.01 of
`SubTotal + IVAPerception - IVARetention - IncomeRetention + sum of taxes` if
`TotalTaxed > 0`, and within 0.01 of `SubTotal + sum of taxes` otherwise. -/
theorem Validate_nil_totalOperation (K : TaxConstants) (d : CreditNoteModel)
    (hv : Validate K ⟨some d⟩ = none)
    (hval : ∀ t ∈ d.CreditSummary.TotalTaxes, t.totalAmount = t.value) :
    (d.CreditSummary.TotalTaxed > 0 →
      |d.CreditSummary.TotalOperation -
        (d.CreditSummary.SubTotal + d.CreditSummary.IVAPerception - d.CreditSummary.IVARetention
          - d.CreditSummary.IncomeRetention
          + (d.CreditSummary.TotalTaxes.map Tax.value).sum)| ≤ 1 / 100) ∧
    (¬ d.CreditSummary.TotalTaxed > 0 →
      |d.CreditSummary.TotalOperation -
        (d.CreditSummary.SubTotal + (d.CreditSummary.TotalTaxes.map Tax.value).sum)|
        ≤ 1 / 100) := by
  rw [Validate_some, validateDocument_eq_none_iff] at hv
  obtain ⟨-, -, -, -, h5⟩ := hv
  have hmap : d.CreditSummary.TotalTaxes.map Tax.totalAmount
      = d.CreditSummary.TotalTaxes.map Tax.value := List.map_congr_left hval
  have hle : ¬ |expectedTotalOperation d - d.CreditSummary.TotalOperation| > tolerance := by
    intro hgt
    unfold validateTotalAmounts at h5
    simp only [NewDTEErrorSimple] at h5
    split at h5
    · simp at h5
    · split at h5
      · simp at h5
      · simp at h5
  rw [not_lt, abs_sub_comm] at hle
  unfold expectedTotalOperation at hle
  simp only [addTaxes_eq_sum, hmap, tolerance] at hle
  constructor
  · intro hpos
    rw [if_pos hpos] at hle
    exact hle
  · intro hnp
    rw [if_neg hnp] at hle
    exact hle

/-- Claim C3, witness: the end-to-end document is accepted and its total of 169.50 is
within 0.01 of 150.00 + 19.50. -/
theorem Validate_nil_totalOperation_witness :
    |(vatDocument (39 / 2) (339 / 2)).CreditSummary.TotalOperation -
      ((vatDocument (39 / 2) (339 / 2)).CreditSummary.SubTotal
        + (vatDocument (39 / 2) (339 / 2)).CreditSummary.IVAPerception
        - (vatDocument (39 / 2) (339 / 2)).CreditSummary.IVARetention
        - (vatDocument (39 / 2) (339 / 2)).CreditSummary.IncomeRetention
        + ((vatDocument (39 / 2) (339 / 2)).CreditSummary.TotalTaxes.map Tax.value).sum)|
      ≤ 1 / 100 :=
  (Validate_nil_totalOperation sampleConstants (vatDocument (39 / 2) (339 / 2))
    vatDocument_valid (by simp [vatDocument])).1 (by norm_num [vatDocument, zeroSummary])

/-- Claim C1 (amended): a non-nil document on which every invariant holds exactly, whose
tax list is also empty for a negative taxed total and whose checked amounts stay below
`2^63` cents in magnitude, is accepted: `Validate` returns nil. -/
theorem Validate_exact_invariants (K : TaxConstants) (d : CreditNoteModel)
    (hinv : ExactInvariants K d)
    (hneg : d.CreditSummary.TotalTaxed < 0 → d.CreditSummary.TotalTaxes = [])
    (hrange : CentsInRange d) :
    Validate K ⟨some d⟩ = none := by
  obtain ⟨hT, hN, hE, hS, ⟨hd1, hd2, hd3⟩, hz, hp, hK, htax, hper, hsub, htot, hw1, hw2, hw3⟩ :=
    hinv
  obtain ⟨hr1, hr2, hr3⟩ := hrange
  have hempty : ¬ d.CreditSummary.TotalTaxed > 0 → d.CreditSummary.TotalTaxes = [] := by
    intro h
    rcases lt_or_eq_of_le (not_lt.mp h) with h1 | h1
    · exact hneg h1
    · exact hz h1
  rw [Validate_some, validateDocument_eq_none_iff]
  refine ⟨?_, ?_, ?_, ?_, ?_⟩
  · rw [validateBaseTotals_eq_none_iff]
    simp only [sumItems_eq_sum, hT, hN, hE, hS]
    refine ⟨?_, not_lt.mpr hd1, not_lt.mpr hd2, not_lt.mpr hd3, trivial, trivial, ?_⟩ <;>
      norm_num
  · rw [validateIVA_eq_none_iff]
    refine ⟨hempty, fun hpos => ⟨hp hpos, fun t ht => ?_⟩⟩
    rw [checkTax_eq_none_iff]
    intro x hx
    rw [(htax t ht).2.1 x hx]
    norm_num
  · rw [validatePerception_eq]
    apply if_neg
    rintro ⟨h0, h1⟩
    rcases hper with h | h
    · exact h0 h
    · rw [h] at h1; norm_num at h1
  · rw [validateMonetaryAmounts_eq_none_iff]
    exact ⟨ValidateMonetaryAmount_wholeCents _ _ hw1 hr1,
      ValidateMonetaryAmount_wholeCents _ _ hw2 hr2,
      fun p hp => ValidateMonetaryAmount_wholeCents _ _ (hw3 p hp) (hr3 p hp)⟩
  · rw [validateTotalAmounts_eq_none_iff]
    refine ⟨?_, ?_, ?_⟩
    · rw [hsub]; norm_num
    · intro _
      apply checkFirstIVA_eq_none
      intro t ht hc
      have hx : expectedTax K (d.CreditSummary.TotalTaxed - d.CreditSummary.TaxedDiscount) t.code
          = some ((d.CreditSummary.TotalTaxed - d.CreditSummary.TaxedDiscount) * (13 / 100)) := by
        unfold expectedTax
        rw [if_pos hc, hK]
      rw [(htax t ht).2.1 _ hx]
      norm_num
    · have hmap : d.CreditSummary.TotalTaxes.map Tax.totalAmount
          = d.CreditSummary.TotalTaxes.map Tax.value :=
        List.map_congr_left (fun t ht => (htax t ht).2.2)
      unfold expectedTotalOperation
      simp only [addTaxes_eq_sum, hmap]
      rw [htot]
      by_cases hpos : d.CreditSummary.TotalTaxed > 0
      · rw [if_pos hpos, if_pos hpos]; norm_num
      · rw [if_neg hpos, if_neg hpos, hempty hpos]; norm_num

/-- Claim C1, witness: the end-to-end document of the spec (taxed sales 100.00 and 50.00,
VAT 19.50) is accepted with a total of 169.50. -/
theorem Validate_exact_invariants_witness :
    Validate sampleConstants ⟨some (vatDocument (39 / 2) (339 / 2))⟩ = none :=
  Validate_exact_invariants sampleConstants (vatDocument (39 / 2) (339 / 2))
    (by unfold ExactInvariants wholeCents
        norm_num [vatDocument, zeroSummary, sampleConstants, expectedTax])
    (by norm_num [vatDocument, zeroSummary])
    (by unfold CentsInRange
        norm_num [vatDocument, zeroSummary, abs_lt])

/-- Claim C1, counterexample: the invariants hold exactly on a document with a negative
taxed total and a VAT entry on its formula, and `Validate` returns `InvalidTaxes`. -/
theorem Validate_exact_invariants_counterexample :
    ExactInvariants sampleConstants negativeTaxedDocument ∧
      CentsInRange negativeTaxedDocument ∧
      Validate sampleConstants ⟨some negativeTaxedDocument⟩
        = some (NewDTEErrorSimple "InvalidTaxes" []) := by
  refine ⟨?_, ?_, ?_⟩
  · unfold ExactInvariants wholeCents
    norm_num [negativeTaxedDocument, zeroSummary, sampleConstants, expectedTax]
  · unfold CentsInRange
    norm_num [negativeTaxedDocument, zeroSummary]
  · rw [Validate_some]
    apply validateDocument_of_IVA
    · rw [validateBaseTotals_eq_none_iff]
      norm_num [negativeTaxedDocument, zeroSummary, sumItems]
    · norm_num [validateIVA, negativeTaxedDocument, zeroSummary]

/-- Claim C4 (amended): on a non-nil document that passes the base-totals stage and has
`TotalTaxed > 0`, a VAT entry whose value differs from `0.13 * (TotalTaxed - TaxedDiscount)`
by more than 0.01, preceded only by entries that pass their own check, makes `Validate`
return `InvalidTaxCalculation` carrying, in this order, the code, the `float64` nearest to
the expected value `0.13 * (TotalTaxed - TaxedDiscount)` and the declared value as a
`float64` (the VAT rate constant being 0.13). -/
theorem Validate_InvalidTaxCalculation_VAT (K : TaxConstants) (d : CreditNoteModel)
    (hK : K.TaxIvaAmount = 13 / 100)
    (hbase : validateBaseTotals d = none)
    (hpos : d.CreditSummary.TotalTaxed > 0)
    (pre post : List Tax) (t : Tax)
    (hl : d.CreditSummary.TotalTaxes = pre ++ t :: post)
    (hpre : ∀ u ∈ pre,
      checkTax K (d.CreditSummary.TotalTaxed - d.CreditSummary.TaxedDiscount) u = none)
    (hc : t.code = K.TaxIVA)
    (hv : |t.value - 13 / 100 * (d.CreditSummary.TotalTaxed - d.CreditSummary.TaxedDiscount)|
      > 1 / 100) :
    Validate K ⟨some d⟩ = some (NewDTEErrorSimple "InvalidTaxCalculation"
      [.str t.code,
        .float (InexactFloat64
          (13 / 100 * (d.CreditSummary.TotalTaxed - d.CreditSummary.TaxedDiscount))),
        .float (InexactFloat64 t.value)]) := by
  have hx : expectedTax K (d.CreditSummary.TotalTaxed - d.CreditSummary.TaxedDiscount) t.code
      = some (13 / 100 * (d.CreditSummary.TotalTaxed - d.CreditSummary.TaxedDiscount)) := by
    unfold expectedTax
    rw [if_pos hc, hK, mul_comm]
  have ht : checkTax K (d.CreditSummary.TotalTaxed - d.CreditSummary.TaxedDiscount) t
      = some (NewDTEErrorSimple "InvalidTaxCalculation"
        [.str t.code,
          .float (InexactFloat64
            (13 / 100 * (d.CreditSummary.TotalTaxed - d.CreditSummary.TaxedDiscount))),
          .float (InexactFloat64 t.value)]) := by
    unfold checkTax
    rw [hx]
    simp only [tolerance]
    rw [abs_sub_comm] at hv
    rw [if_pos hv]
  rw [Validate_some]
  apply validateDocument_of_IVA K d _ hbase
  unfold validateIVA
  simp only []
  rw [if_neg (not_not.mpr hpos), hl, if_neg (by simp)]
  exact checkTaxes_append K _ pre post t _ hpre ht

/-- Claim C4, witness: a VAT entry of 20.00 on a taxed total of 150.00 is reported with
expected 19.50 and actual 20.00. -/
theorem Validate_InvalidTaxCalculation_VAT_witness :
    Validate sampleConstants ⟨some (vatDocument 20 170)⟩
      = some (NewDTEErrorSimple "InvalidTaxCalculation"
          [.str "20", .float (.finite (39 / 2)), .float (.finite 20)]) := by
  have h := Validate_InvalidTaxCalculation_VAT sampleConstants (vatDocument 20 170) rfl
    (vatDocument_base 20 170) (by norm_num [vatDocument, zeroSummary]) [] [] ⟨"20", 20, 20⟩ rfl
    (by simp) rfl (by rw [gt_iff_lt, lt_abs]; left; norm_num [vatDocument, zeroSummary])
  have e : (13 / 100 * ((vatDocument 20 170).CreditSummary.TotalTaxed
      - (vatDocument 20 170).CreditSummary.TaxedDiscount) : ℚ) = 39 / 2 := by
    norm_num [vatDocument, zeroSummary]
  rw [e, InexactFloat64_19_5, InexactFloat64_twenty] at h
  exact h

/-- Stage 1 passes on the document whose declared taxed total is a `float64` sum. -/
theorem floatSumDocument_base : validateBaseTotals floatSumDocument = none := by
  rw [validateBaseTotals_eq_none_iff]
  norm_num [floatSumDocument, zeroSummary, sumItems, abs_le]

/-- Claim C4, counterexample: with taxed sales 0.1 and 0.2, `TotalTaxed`
0.30000000000000004 and a VAT entry of 5.00, every condition of the claim holds and
`Validate` returns `InvalidTaxCalculation`, but the expected value it carries is the
`float64` 1405123083739595 / 2^55 (printed 0.03900000000000001), not
`0.13 * (TotalTaxed - TaxedDiscount)` = 0.0390000000000000052. -/
theorem Validate_InvalidTaxCalculation_VAT_counterexample :
    validateBaseTotals floatSumDocument = none ∧
      floatSumDocument.CreditSummary.TotalTaxed > 0 ∧
      floatSumDocument.CreditSummary.TotalTaxes = [⟨sampleConstants.TaxIVA, 5, 5⟩] ∧
      |(5 : ℚ) - 13 / 100 * (floatSumDocument.CreditSummary.TotalTaxed
        - floatSumDocument.CreditSummary.TaxedDiscount)| > 1 / 100 ∧
      Validate sampleConstants ⟨some floatSumDocument⟩
        = some (NewDTEErrorSimple "InvalidTaxCalculation"
            [.str "20", .float (.finite (1405123083739595 / 36028797018963968)),
              .float (.finite 5)]) ∧
      (1405123083739595 / 36028797018963968 : ℚ)
        ≠ 13 / 100 * (floatSumDocument.CreditSummary.TotalTaxed
          - floatSumDocument.CreditSummary.TaxedDiscount) := by
  refine ⟨floatSumDocument_base, by norm_num [floatSumDocument, zeroSummary], rfl, ?_, ?_, ?_⟩
  · rw [gt_iff_lt, lt_abs]; left; norm_num [floatSumDocument, zeroSummary]
  · have hx : expectedTax sampleConstants
        (30000000000000004 / 100000000000000000 - 0) "20"
        = some (97500000000000013 / 2500000000000000000) := by
      unfold expectedTax
      rw [if_pos (by decide)]
      norm_num [sampleConstants]
    have ht : checkTax sampleConstants (30000000000000004 / 100000000000000000 - 0)
        ⟨"20", 5, 5⟩
        = some (NewDTEErrorSimple "InvalidTaxCalculation"
            [.str "20", .float (.finite (1405123083739595 / 36028797018963968)),
              .float (.finite 5)]) := by
      unfold checkTax
      rw [hx]
      simp only [tolerance]
      rw [if_pos (by rw [gt_iff_lt, lt_abs]; right; norm_num), InexactFloat64_0_039,
        InexactFloat64_five]
    rw [Validate_some]
    apply validateDocument_of_IVA _ _ _ floatSumDocument_base
    unfold validateIVA
    simp only [floatSumDocument, zeroSummary]
    rw [if_neg (by norm_num), if_neg (by simp)]
    exact checkTaxes_append sampleConstants _ [] [] _ _ (by simp) ht
  · norm_num [floatSumDocument, zeroSummary]

/-- Claim C6 (amended): on a non-nil document whose items' taxed sum is within 0.01 of
`TotalTaxed`, a discount exceeding `SubTotal` makes `Validate` return
`DiscountExceedsSubtotal` naming the first of `TaxedDiscount`, `ExemptDiscount`,
`NonSubjectDiscount` that exceeds it, followed by that discount and `SubTotal`. -/
theorem Validate_DiscountExceedsSubtotal (K : TaxConstants) (d : CreditNoteModel)
    (hT : |(d.CreditItems.map CreditItem.TaxedSale).sum - d.CreditSummary.TotalTaxed|
      ≤ 1 / 100) :
    (d.CreditSummary.SubTotal < d.CreditSummary.TaxedDiscount →
      Validate K ⟨some d⟩ = some (NewDTEErrorSimple "DiscountExceedsSubtotal"
        [.str "TaxedDiscount", .num d.CreditSummary.TaxedDiscount,
          .num d.CreditSummary.SubTotal])) ∧
    (¬ d.CreditSummary.SubTotal < d.CreditSummary.TaxedDiscount →
      d.CreditSummary.SubTotal < d.CreditSummary.ExemptDiscount →
      Validate K ⟨some d⟩ = some (NewDTEErrorSimple "DiscountExceedsSubtotal"
        [.str "ExemptDiscount", .num d.CreditSummary.ExemptDiscount,
          .num d.CreditSummary.SubTotal])) ∧
    (¬ d.CreditSummary.SubTotal < d.CreditSummary.TaxedDiscount →
      ¬ d.CreditSummary.SubTotal < d.CreditSummary.ExemptDiscount →
      d.CreditSummary.SubTotal < d.CreditSummary.NonSubjectDiscount →
      Validate K ⟨some d⟩ = some (NewDTEErrorSimple "DiscountExceedsSubtotal"
        [.str "NonSubjectDiscount", .num d.CreditSummary.NonSubjectDiscount,
          .num d.CreditSummary.SubTotal])) := by
  rw [← sumItems_eq_sum] at hT
  have h0 : ¬ |sumItems CreditItem.TaxedSale d.CreditItems - d.CreditSummary.TotalTaxed|
      > tolerance := not_lt.mpr hT
  rw [Validate_some]
  unfold validateDocument validateBaseTotals
  simp only []
  rw [if_neg h0]
  refine ⟨fun h1 => ?_, fun h1 h2 => ?_, fun h1 h2 h3 => ?_⟩
  · rw [if_pos h1]
  · rw [if_neg h1, if_pos h2]
  · rw [if_neg h1, if_neg h2, if_pos h3]

/-- Claim C6, witness: a taxed discount of 150.00 on a subtotal of 100.00. -/
theorem Validate_DiscountExceedsSubtotal_witness :
    Validate sampleConstants ⟨some taxedDiscountDocument⟩
      = some (NewDTEErrorSimple "DiscountExceedsSubtotal"
          [.str "TaxedDiscount", .num 150, .num 100]) :=
  (Validate_DiscountExceedsSubtotal sampleConstants taxedDiscountDocument
    (by norm_num [taxedDiscountDocument, zeroSummary])).1
    (by norm_num [taxedDiscountDocument, zeroSummary])

/-- Claim C6, counterexample: a taxed discount exceeds the subtotal, yet `Validate`
returns `InvalidTotalTaxed`, the earlier comparison of the base-totals stage. -/
theorem Validate_DiscountExceedsSubtotal_counterexample :
    discountAndTaxedMismatchDocument.CreditSummary.SubTotal
        < discountAndTaxedMismatchDocument.CreditSummary.TaxedDiscount ∧
      Validate sampleConstants ⟨some discountAndTaxedMismatchDocument⟩
        = some (NewDTEErrorSimple "InvalidTotalTaxed"
            [.float (.finite 1), .float (.finite 0)]) := by
  constructor
  · norm_num [discountAndTaxedMismatchDocument, zeroSummary]
  · rw [Validate_some]
    unfold validateDocument validateBaseTotals
    norm_num [discountAndTaxedMismatchDocument, zeroSummary, sumItems, tolerance,
      InexactFloat64_one, InexactFloat64_zero]

/-- Claim C7, evaluation at the failing inputs: a non-subject (resp. exempt) sum that is
0.01 away from the declared total is reported as `InvalidTotalNonSubject` (resp.
`InvalidTotalExempt`), because these two comparisons are exact. -/
theorem validateBaseTotals_category_tolerance_missing :
    (|(nonSubjectRoundingDocument.CreditItems.map CreditItem.NonSubjectSale).sum
        - nonSubjectRoundingDocument.CreditSummary.TotalNonSubject| ≤ 1 / 100 ∧
      validateBaseTotals nonSubjectRoundingDocument
        = some (NewDTEErrorSimple "InvalidTotalNonSubject"
            [.float (.finite 10), .float (InexactFloat64 (1001 / 100))])) ∧
    (|(exemptRoundingDocument.CreditItems.map CreditItem.ExemptSale).sum
        - exemptRoundingDocument.CreditSummary.TotalExempt| ≤ 1 / 100 ∧
      validateBaseTotals exemptRoundingDocument
        = some (NewDTEErrorSimple "InvalidTotalExempt"
            [.float (.finite 10), .float (InexactFloat64 (1001 / 100))])) := by
  refine ⟨⟨?_, ?_⟩, ⟨?_, ?_⟩⟩
  · norm_num [nonSubjectRoundingDocument, zeroSummary, abs_le]
  · unfold validateBaseTotals
    norm_num [nonSubjectRoundingDocument, zeroSummary, sumItems, tolerance, InexactFloat64_ten]
  · norm_num [exemptRoundingDocument, zeroSummary, abs_le]
  · unfold validateBaseTotals
    norm_num [exemptRoundingDocument, zeroSummary, sumItems, tolerance, InexactFloat64_ten]

/-- Claim C9, evaluation at the failing input: the amount `10^17` is a whole number of
cents, its hundredfold does not fit an `int64`, `IntPart` wraps around, and the helper
returns `InvalidMonetaryAmount`. -/
theorem ValidateMonetaryAmount_int64_overflow :
    wholeCents (10 ^ 17) ∧
      IntPart (10 ^ 17 * 100) = -8446744073709551616 ∧
      ValidateMonetaryAmount (10 ^ 17) "total_operation"
        = some (NewDTEErrorSimple "InvalidMonetaryAmount"
            [.str "total_operation", .num (10 ^ 17)]) := by
  have e : (10 ^ 17 * 100 : ℚ) = ((10 ^ 19 : ℤ) : ℚ) := by norm_num
  have hi : IntPart (10 ^ 17 * 100) = -8446744073709551616 := by
    rw [e, IntPart, truncToZero_intCast]
    norm_num [bigIntInt64, wrapInt64]
  refine ⟨?_, hi, ?_⟩
  · unfold wholeCents
    rw [e, Int.floor_intCast]
  · unfold ValidateMonetaryAmount
    simp only [hi, tolerance]
    norm_num

/-- Claim C11, evaluation at the failing input: with `TotalTaxed > 0`, a tax entry whose
code is none of the seven codes is not skipped; it is compared with the zero value, and
its value of 5.00 makes the tax stage return `InvalidTaxCalculation` with expected 0. -/
theorem validateIVA_unknown_code_checked :
    "ZZ" ∉ [sampleConstants.TaxIVA, sampleConstants.TaxIVAExport, sampleConstants.TaxTourism,
        sampleConstants.TaxTourismAirport, sampleConstants.TaxFOVIAL,
        sampleConstants.TaxCOTRANS, sampleConstants.TaxSpecialOther] ∧
      unknownCodeDocument.CreditSummary.TotalTaxed > 0 ∧
      validateIVA sampleConstants unknownCodeDocument
        = some (NewDTEErrorSimple "InvalidTaxCalculation"
            [.str "ZZ", .float (.finite 0), .float (.finite 5)]) := by
  refine ⟨by decide, by norm_num [unknownCodeDocument, zeroSummary], ?_⟩
  have h1 : checkTax sampleConstants (150 - 0) ⟨"20", 39 / 2, 39 / 2⟩ = none := by
    rw [checkTax_eq_none_iff]
    norm_num [expectedTax, sampleConstants]
  have h2 : checkTax sampleConstants (150 - 0) ⟨"ZZ", 5, 5⟩
      = some (NewDTEErrorSimple "InvalidTaxCalculation"
          [.str "ZZ", .float (.finite 0), .float (.finite 5)]) := by
    rw [checkTax_unknown_code _ _ _ (by decide), InexactFloat64_zero, InexactFloat64_five]
    rw [if_pos]
    norm_num
  unfold validateIVA
  simp only [unknownCodeDocument, zeroSummary]
  rw [if_neg (by norm_num), if_neg (by simp)]
  exact checkTaxes_append sampleConstants _ [_] [] _ _ (by simpa using h1) h2

/-- Claim C12: with `TotalTaxed > 0` and the code of `TaxSpecialOther` distinct from the
six codes tested before it, replacing the value of an entry with that code leaves the
result of `validateIVA` unchanged; the entry passes its check whatever its value; and
the entries after it are still checked: the first entry after it that deviates from its
expected value by more than 0.01, all other entries before that one being within
tolerance, makes `validateIVA` return `InvalidTaxCalculation` for that entry. -/
theorem validateIVA_specialOther_passthrough (K : TaxConstants) (d : CreditNoteModel)
    (hdist : K.TaxSpecialOther ∉ [K.TaxIVA, K.TaxIVAExport, K.TaxTourism, K.TaxTourismAirport,
      K.TaxFOVIAL, K.TaxCOTRANS])
    (hpos : d.CreditSummary.TotalTaxed > 0)
    (pre post : List Tax) (t : Tax) (v : ℚ)
    (hl : d.CreditSummary.TotalTaxes = pre ++ t :: post)
    (hc : t.code = K.TaxSpecialOther) :
    validateIVA K (withTotalTaxes d (pre ++ { t with value := v } :: post)) = validateIVA K d ∧
    (∀ b, checkTax K b t = none) ∧
    (∀ b, checkTaxes K b (t :: post) = checkTaxes K b post) ∧
    (∀ (mid rest : List Tax) (u : Tax) (x : ℚ), post = mid ++ u :: rest →
      (∀ p ∈ pre ++ mid, ∀ y,
        expectedTax K (d.CreditSummary.TotalTaxed - d.CreditSummary.TaxedDiscount) p.code
          = some y → |y - p.value| ≤ 1 / 100) →
      expectedTax K (d.CreditSummary.TotalTaxed - d.CreditSummary.TaxedDiscount) u.code
        = some x →
      |x - u.value| > 1 / 100 →
      validateIVA K d = some (NewDTEErrorSimple "InvalidTaxCalculation"
        [.str u.code, .float (InexactFloat64 x), .float (InexactFloat64 u.value)])) := by
  have ht : ∀ b, checkTax K b t = none := fun b => checkTax_specialOther K b t hdist hc
  have ht2 : ∀ b, checkTax K b { t with value := v } = none :=
    fun b => checkTax_specialOther K b _ hdist hc
  have hcons : ∀ b (u : Tax), checkTax K b u = none →
      checkTaxes K b (u :: post) = checkTaxes K b post := by
    intro b u hu
    rw [checkTaxes_cons, hu]
  refine ⟨?_, ht, fun b => hcons b t (ht b), ?_⟩
  · unfold validateIVA withTotalTaxes
    simp only []
    rw [if_neg (not_not.mpr hpos), if_neg (not_not.mpr hpos), hl, if_neg (by simp),
      if_neg (by simp), checkTaxes_append_eq, checkTaxes_append_eq, hcons _ _ (ht _),
      hcons _ _ (ht2 _)]
  · intro mid rest u x hpost hbefore hx hdev
    have hu : checkTax K (d.CreditSummary.TotalTaxed - d.CreditSummary.TaxedDiscount) u
        = some (NewDTEErrorSimple "InvalidTaxCalculation"
          [.str u.code, .float (InexactFloat64 x), .float (InexactFloat64 u.value)]) := by
      unfold checkTax
      rw [hx]
      simp only [tolerance]
      rw [if_pos hdev]
    have hall : ∀ p ∈ pre ++ t :: mid,
        checkTax K (d.CreditSummary.TotalTaxed - d.CreditSummary.TaxedDiscount) p = none := by
      intro p hp
      rcases List.mem_append.mp hp with h | h
      · exact (checkTax_eq_none_iff K _ p).mpr (hbefore p (List.mem_append_left _ h))
      · rcases List.mem_cons.mp h with h | h
        · rw [h]; exact ht _
        · exact (checkTax_eq_none_iff K _ p).mpr (hbefore p (List.mem_append_right _ h))
    unfold validateIVA
    simp only []
    rw [if_neg (not_not.mpr hpos), hl, if_neg (by simp), hpost,
      show pre ++ t :: (mid ++ u :: rest) = (pre ++ t :: mid) ++ u :: rest by simp]
    exact checkTaxes_append K _ (pre ++ t :: mid) rest u _ hall hu

/-- Claim C12, witness: on the end-to-end document with a `TaxSpecialOther` entry ("D5")
in front of a VAT entry of 20.00, the VAT entry is still checked and reported (expected
19.50, actual 20.00), and changing the value of the "D5" entry from 1.00 to 999.00 gives
the same result. -/
theorem validateIVA_specialOther_passthrough_witness :
    validateIVA sampleConstants
        (withTotalTaxes (vatDocument 20 170) [⟨"D5", 1, 1⟩, ⟨"20", 20, 20⟩])
      = some (NewDTEErrorSimple "InvalidTaxCalculation"
          [.str "20", .float (.finite (39 / 2)), .float (.finite 20)]) ∧
    validateIVA sampleConstants
        (withTotalTaxes (withTotalTaxes (vatDocument 20 170) [⟨"D5", 1, 1⟩, ⟨"20", 20, 20⟩])
          ([] ++ { (⟨"D5", 1, 1⟩ : Tax) with value := 999 } :: [⟨"20", 20, 20⟩]))
      = some (NewDTEErrorSimple "InvalidTaxCalculation"
          [.str "20", .float (.finite (39 / 2)), .float (.finite 20)]) := by
  have h := validateIVA_specialOther_passthrough sampleConstants
    (withTotalTaxes (vatDocument 20 170) [⟨"D5", 1, 1⟩, ⟨"20", 20, 20⟩])
    (by decide) (by norm_num [withTotalTaxes, vatDocument, zeroSummary])
    [] [⟨"20", 20, 20⟩] ⟨"D5", 1, 1⟩ 999 rfl rfl
  have h4 := h.2.2.2 [] [] ⟨"20", 20, 20⟩ (39 / 2) rfl (by simp)
    (by
      unfold expectedTax
      rw [if_pos (by decide)]
      norm_num [withTotalTaxes, vatDocument, zeroSummary, sampleConstants])
    (by rw [gt_iff_lt, lt_abs]; right; norm_num)
  rw [InexactFloat64_19_5, InexactFloat64_twenty] at h4
  exact ⟨h4, h.1.trans h4⟩

/-- Claim C13 (amended): when `Validate` returns nil on a non-nil document, the declared
`SubTotalSales` is within 0.02 of the sum of the summary's `TotalTaxed`, `TotalNonSubject`
and `TotalExempt`. -/
theorem Validate_nil_subTotalSales (K : TaxConstants) (d : CreditNoteModel)
    (hv : Validate K ⟨some d⟩ = none) :
    |d.CreditSummary.SubTotalSales - (d.CreditSummary.TotalTaxed
      + d.CreditSummary.TotalNonSubject + d.CreditSummary.TotalExempt)| ≤ 2 / 100 := by
  rw [Validate_some, validateDocument_eq_none_iff, validateBaseTotals_eq_none_iff] at hv
  obtain ⟨⟨h1, -, -, -, h5, h6, h7⟩, -⟩ := hv
  rw [h5, h6] at h7
  rw [not_lt, abs_le] at h1 h7
  rw [abs_le]
  constructor <;> linarith [h1.1, h1.2, h7.1, h7.2]

/-- Claim C13, witness: the accepted document with `TotalTaxed = 100.01` and
`SubTotalSales = 99.99`. -/
theorem Validate_nil_subTotalSales_witness :
    |toleranceStackDocument.CreditSummary.SubTotalSales
      - (toleranceStackDocument.CreditSummary.TotalTaxed
        + toleranceStackDocument.CreditSummary.TotalNonSubject
        + toleranceStackDocument.CreditSummary.TotalExempt)| ≤ 2 / 100 :=
  Validate_nil_subTotalSales sampleConstants toleranceStackDocument
    toleranceStackDocument_valid

/-- Claim C13, counterexample: an accepted document whose `SubTotalSales` is 0.02 away
from the sum of the three summary totals. -/
theorem Validate_nil_subTotalSales_counterexample :
    Validate sampleConstants ⟨some toleranceStackDocument⟩ = none ∧
      |toleranceStackDocument.CreditSummary.SubTotalSales
        - (toleranceStackDocument.CreditSummary.TotalTaxed
          + toleranceStackDocument.CreditSummary.TotalNonSubject
          + toleranceStackDocument.CreditSummary.TotalExempt)| > 1 / 100 := by
  refine ⟨toleranceStackDocument_valid, ?_⟩
  rw [gt_iff_lt, lt_abs]
  right
  norm_num [toleranceStackDocument, zeroSummary]

/-- Claim C14 (amended): when `Validate` returns `DiscountExceedsSubtotal` on a non-nil
document, the error names one of the three discount fields and that discount is greater
than the declared `SubTotal`. -/
theorem Validate_discount_error_above_SubTotal (K : TaxConstants) (d : CreditNoteModel) (e : DTEError)
    (h : Validate K ⟨some d⟩ = some e) (hc : e.code = "DiscountExceedsSubtotal") :
    (e.params = [.str "TaxedDiscount", .num d.CreditSummary.TaxedDiscount,
        .num d.CreditSummary.SubTotal] ∧
      d.CreditSummary.SubTotal < d.CreditSummary.TaxedDiscount) ∨
    (e.params = [.str "ExemptDiscount", .num d.CreditSummary.ExemptDiscount,
        .num d.CreditSummary.SubTotal] ∧
      d.CreditSummary.SubTotal < d.CreditSummary.ExemptDiscount) ∨
    (e.params = [.str "NonSubjectDiscount", .num d.CreditSummary.NonSubjectDiscount,
        .num d.CreditSummary.SubTotal] ∧
      d.CreditSummary.SubTotal < d.CreditSummary.NonSubjectDiscount) := by
  rw [Validate_some] at h
  rcases validateDocument_eq_some K d e h with h1 | h1 | h1 | h1 | h1
  · exact validateBaseTotals_DiscountExceedsSubtotal d e h1 hc
  · have := validateIVA_code K d e h1
    rw [hc] at this; simp at this
  · have := validatePerception_code d e h1
    rw [hc] at this; simp at this
  · have := validateMonetaryAmounts_code d e h1
    rw [hc] at this; simp at this
  · have := validateTotalAmounts_code K d e h1
    rw [hc] at this; simp at this

/-- Claim C14, witness: the error of the document with a 60.00 discount names
`TaxedDiscount`, which is above the subtotal of 40.00. -/
theorem Validate_discount_error_above_SubTotal_witness :
    ((NewDTEErrorSimple "DiscountExceedsSubtotal"
          [.str "TaxedDiscount", .num 60, .num 40]).params
        = [.str "TaxedDiscount", .num largeDiscountDocument.CreditSummary.TaxedDiscount,
            .num largeDiscountDocument.CreditSummary.SubTotal] ∧
      largeDiscountDocument.CreditSummary.SubTotal
        < largeDiscountDocument.CreditSummary.TaxedDiscount) ∨
    ((NewDTEErrorSimple "DiscountExceedsSubtotal"
          [.str "TaxedDiscount", .num 60, .num 40]).params
        = [.str "ExemptDiscount", .num largeDiscountDocument.CreditSummary.ExemptDiscount,
            .num largeDiscountDocument.CreditSummary.SubTotal] ∧
      largeDiscountDocument.CreditSummary.SubTotal
        < largeDiscountDocument.CreditSummary.ExemptDiscount) ∨
    ((NewDTEErrorSimple "DiscountExceedsSubtotal"
          [.str "TaxedDiscount", .num 60, .num 40]).params
        = [.str "NonSubjectDiscount", .num largeDiscountDocument.CreditSummary.NonSubjectDiscount,
            .num largeDiscountDocument.CreditSummary.SubTotal] ∧
      largeDiscountDocument.CreditSummary.SubTotal
        < largeDiscountDocument.CreditSummary.NonSubjectDiscount) :=
  Validate_discount_error_above_SubTotal sampleConstants largeDiscountDocument _
    (largeDiscountDocument_result sampleConstants) rfl

/-- Claim C14, counterexample: a taxed discount of 60.00 does not exceed the subtotal of
sales of 100.00 it is subtracted from, yet `Validate` returns `DiscountExceedsSubtotal`
naming it, because it exceeds the final subtotal of 40.00. -/
theorem Validate_discount_error_above_SubTotal_counterexample :
    largeDiscountDocument.CreditSummary.TaxedDiscount
        ≤ largeDiscountDocument.CreditSummary.SubTotalSales ∧
      largeDiscountDocument.CreditSummary.SubTotal
        = largeDiscountDocument.CreditSummary.SubTotalSales
          - largeDiscountDocument.CreditSummary.TaxedDiscount
          - largeDiscountDocument.CreditSummary.ExemptDiscount
          - largeDiscountDocument.CreditSummary.NonSubjectDiscount ∧
      Validate sampleConstants ⟨some largeDiscountDocument⟩
        = some (NewDTEErrorSimple "DiscountExceedsSubtotal"
            [.str "TaxedDiscount", .num 60, .num 40]) := by
  refine ⟨?_, ?_, largeDiscountDocument_result _⟩
  · norm_num [largeDiscountDocument, zeroSummary]
  · norm_num [largeDiscountDocument, zeroSummary]

/-- Claim C20: with the VAT rate constant 0.13, `Validate` never returns
`InvalidIVACalculation`, on any strategy: when the total-amounts stage is reached with
`TotalTaxed > 0`, the tax stage has already accepted every VAT entry against the same
expected value. -/
theorem Validate_never_InvalidIVACalculation (K : TaxConstants) (s : CreditNoteTaxStrategy)
    (hK : K.TaxIvaAmount = 13 / 100) :
    ¬ ∃ e, Validate K s = some e ∧ e.code = "InvalidIVACalculation" := by
  rintro ⟨e, h, hc⟩
  obtain ⟨doc⟩ := s
  cases doc with
  | none => simp [Validate] at h
  | some d =>
    rw [Validate_some] at h
    rcases validateDocument_cases K d e h with h1 | ⟨-, h1⟩ | ⟨-, -, h1⟩ | ⟨-, -, -, h1⟩ |
      ⟨-, h2, -, -, h5⟩
    · have := validateBaseTotals_code d e h1
      rw [hc] at this; simp at this
    · have := validateIVA_code K d e h1
      rw [hc] at this; simp at this
    · have := validatePerception_code d e h1
      rw [hc] at this; simp at this
    · have := validateMonetaryAmounts_code d e h1
      rw [hc] at this; simp at this
    · obtain ⟨hpos, hiva⟩ := validateTotalAmounts_InvalidIVACalculation K d e h5 hc
      rw [validateIVA_eq_none_iff] at h2
      have hall := (h2.2 hpos).2
      have hnone : checkFirstIVA K
          ((d.CreditSummary.TotalTaxed - d.CreditSummary.TaxedDiscount) * (13 / 100))
          d.CreditSummary.TotalTaxes = none := by
        apply checkFirstIVA_eq_none
        intro t ht hcode
        have hx : expectedTax K (d.CreditSummary.TotalTaxed - d.CreditSummary.TaxedDiscount)
            t.code
            = some ((d.CreditSummary.TotalTaxed - d.CreditSummary.TaxedDiscount) * (13 / 100)) := by
          unfold expectedTax
          rw [if_pos hcode, hK]
        exact (checkTax_eq_none_iff K _ t).mp (hall t ht) _ hx
      rw [hnone] at hiva
      cases hiva

/-- Claim C20, witness: the document with a VAT entry of 20.00 instead of 19.50. -/
theorem Validate_never_InvalidIVACalculation_witness :
    ¬ ∃ e, Validate sampleConstants ⟨some (vatDocument 20 170)⟩ = some e ∧
      e.code = "InvalidIVACalculation" :=
  Validate_never_InvalidIVACalculation sampleConstants ⟨some (vatDocument 20 170)⟩ rfl

/-- Claim C21: a strategy whose `Document` is nil validates successfully: `Validate`
returns nil, from the branch taken before any of the five stages. -/
theorem Validate_nil_document (K : TaxConstants) :
    Validate K ⟨none⟩ = none ∧
    (∀ s : CreditNoteTaxStrategy, s.Document = none → Validate K s = none) := by
  refine ⟨rfl, fun s h => ?_⟩
  unfold Validate
  rw [h]

end CreditNote

namespace Auth

variable {Claims User Branch : Type}

/-! ## Auxiliary lemmas -/

/-- The function `credentialsExists` holds exactly for complete credentials. -/
theorem credentialsExists_eq_true_iff (c : AuthCredentials) :
    credentialsExists c = true ↔
      c.APIKey ≠ "" ∧ c.APISecret ≠ "" ∧
        ∃ mh, c.MHCredentials = some mh ∧ mh.Username ≠ "" ∧ mh.Password ≠ "" := by
  unfold credentialsExists
  cases h : c.MHCredentials with
  | none => simp
  | some mh => simp [and_assoc]

/-- `errors.Is` finds a sentinel through any number of wrappings. -/
theorem errorsIs_wrapped (target inner : GoError) (text : String)
    (h : errorsIs target inner = true) : errorsIs target (.wrapped text inner) = true := by
  simp [errorsIs, h]

/-- `errors.Is` of an error with itself. -/
theorem errorsIs_self (target : GoError) : errorsIs target target = true := by
  cases target <;> simp [errorsIs]

/-- `Login` after the credential check and a successful lookup of the strategy. -/
theorem Login_of_strategy (s : AuthService Claims User Branch) (c : AuthCredentials)
    (authType : String) (strategy : AuthStrategy Claims)
    (hc : credentialsExists c = true)
    (hrepo : s.authRepo.GetAuthTypeByApiKey c.APIKey = .ok authType)
    (hst : s.strategies authType = some strategy) :
    Login s c =
      match strategy.ValidateCredentials c with
      | some err =>
        ⟨"", some err, [.GetAuthTypeByApiKey c.APIKey, .ValidateCredentials authType c]⟩
      | none =>
        match strategy.Authenticate c with
        | .error err =>
          ⟨"", some err, [.GetAuthTypeByApiKey c.APIKey, .ValidateCredentials authType c,
            .Authenticate authType c]⟩
        | .ok claims =>
          match strategy.GetTokenLifetime c with
          | .error err =>
            ⟨"", some err, [.GetAuthTypeByApiKey c.APIKey, .ValidateCredentials authType c,
              .Authenticate authType c, .GetTokenLifetime authType c]⟩
          | .ok lifetime =>
            match s.tokenService.GenerateToken claims lifetime with
            | .error err =>
              ⟨"", some err, [.GetAuthTypeByApiKey c.APIKey, .ValidateCredentials authType c,
                .Authenticate authType c, .GetTokenLifetime authType c,
                .GenerateToken claims lifetime]⟩
            | .ok token =>
              match s.cacheService.SetCredentials token c.MHCredentials lifetime with
              | some err => ⟨"", some err, fullTrace c authType claims lifetime token⟩
              | none => ⟨token, none, fullTrace c authType claims lifetime token⟩ := by
  unfold Login
  rw [if_neg (not_not.mpr hc)]
  simp only [hrepo, hst, fullTrace, List.cons_append, List.nil_append]

/-- `Login` on incomplete credentials. -/
theorem Login_missing (s : AuthService Claims User Branch) (c : AuthCredentials)
    (hc : ¬ credentialsExists c = true) :
    Login s c =
      ⟨"", some (NewFormattedGeneralServiceError "AuthService" "Login" "MissingCredentials" []),
        []⟩ := by
  unfold Login
  rw [if_pos hc]

/-- `Login` when the lookup of the auth type fails. -/
theorem Login_lookup_error (s : AuthService Claims User Branch) (c : AuthCredentials)
    (e : GoError) (hc : credentialsExists c = true)
    (hrepo : s.authRepo.GetAuthTypeByApiKey c.APIKey = .error e) :
    Login s c =
      if errorsIs .ErrUserNotFound e then
        ⟨"", some (NewFormattedGeneralServiceError "AuthService" "Login" "NotFound" []),
          [.GetAuthTypeByApiKey c.APIKey]⟩
      else ⟨"", some e, [.GetAuthTypeByApiKey c.APIKey]⟩ := by
  unfold Login
  rw [if_neg (not_not.mpr hc)]
  simp only [hrepo]

/-- `Login` when no strategy is registered for the auth type. -/
theorem Login_no_strategy (s : AuthService Claims User Branch) (c : AuthCredentials)
    (authType : String) (hc : credentialsExists c = true)
    (hrepo : s.authRepo.GetAuthTypeByApiKey c.APIKey = .ok authType)
    (hst : s.strategies authType = none) :
    Login s c =
      ⟨"", some (NewFormattedGeneralServiceError "AuthService" "Login" "ServerError" [authType]),
        [.GetAuthTypeByApiKey c.APIKey]⟩ := by
  unfold Login
  rw [if_neg (not_not.mpr hc)]
  simp only [hrepo, hst]

/-- `Login` when the strategy rejects the credentials. -/
theorem Login_validate_error (s : AuthService Claims User Branch) (c : AuthCredentials)
    (authType : String) (strategy : AuthStrategy Claims) (e : GoError)
    (hc : credentialsExists c = true)
    (hrepo : s.authRepo.GetAuthTypeByApiKey c.APIKey = .ok authType)
    (hst : s.strategies authType = some strategy)
    (h1 : strategy.ValidateCredentials c = some e) :
    Login s c =
      ⟨"", some e, [.GetAuthTypeByApiKey c.APIKey, .ValidateCredentials authType c]⟩ := by
  rw [Login_of_strategy s c authType strategy hc hrepo hst]
  simp only [h1]

/-- `Login` when the strategy fails to authenticate. -/
theorem Login_authenticate_error (s : AuthService Claims User Branch) (c : AuthCredentials)
    (authType : String) (strategy : AuthStrategy Claims) (e : GoError)
    (hc : credentialsExists c = true)
    (hrepo : s.authRepo.GetAuthTypeByApiKey c.APIKey = .ok authType)
    (hst : s.strategies authType = some strategy)
    (h1 : strategy.ValidateCredentials c = none)
    (h2 : strategy.Authenticate c = .error e) :
    Login s c =
      ⟨"", some e, [.GetAuthTypeByApiKey c.APIKey, .ValidateCredentials authType c,
        .Authenticate authType c]⟩ := by
  rw [Login_of_strategy s c authType strategy hc hrepo hst]
  simp only [h1, h2]

/-- `Login` when the strategy gives no token lifetime. -/
theorem Login_lifetime_error (s : AuthService Claims User Branch) (c : AuthCredentials)
    (authType : String) (strategy : AuthStrategy Claims) (claims : Claims) (e : GoError)
    (hc : credentialsExists c = true)
    (hrepo : s.authRepo.GetAuthTypeByApiKey c.APIKey = .ok authType)
    (hst : s.strategies authType = some strategy)
    (h1 : strategy.ValidateCredentials c = none)
    (h2 : strategy.Authenticate c = .ok claims)
    (h3 : strategy.GetTokenLifetime c = .error e) :
    Login s c =
      ⟨"", some e, [.GetAuthTypeByApiKey c.APIKey, .ValidateCredentials authType c,
        .Authenticate authType c, .GetTokenLifetime authType c]⟩ := by
  rw [Login_of_strategy s c authType strategy hc hrepo hst]
  simp only [h1, h2, h3]

/-- `Login` when the token service fails. -/
theorem Login_token_error (s : AuthService Claims User Branch) (c : AuthCredentials)
    (authType : String) (strategy : AuthStrategy Claims) (claims : Claims) (lifetime : Int)
    (e : GoError)
    (hc : credentialsExists c = true)
    (hrepo : s.authRepo.GetAuthTypeByApiKey c.APIKey = .ok authType)
    (hst : s.strategies authType = some strategy)
    (h1 : strategy.ValidateCredentials c = none)
    (h2 : strategy.Authenticate c = .ok claims)
    (h3 : strategy.GetTokenLifetime c = .ok lifetime)
    (h4 : s.tokenService.GenerateToken claims lifetime = .error e) :
    Login s c =
      ⟨"", some e, [.GetAuthTypeByApiKey c.APIKey, .ValidateCredentials authType c,
        .Authenticate authType c, .GetTokenLifetime authType c,
        .GenerateToken claims lifetime]⟩ := by
  rw [Login_of_strategy s c authType strategy hc hrepo hst]
  simp only [h1, h2, h3, h4]

/-- `Login` when the cache write fails. -/
theorem Login_cache_error (s : AuthService Claims User Branch) (c : AuthCredentials)
    (authType : String) (strategy : AuthStrategy Claims) (claims : Claims) (lifetime : Int)
    (token : String) (e : GoError)
    (hc : credentialsExists c = true)
    (hrepo : s.authRepo.GetAuthTypeByApiKey c.APIKey = .ok authType)
    (hst : s.strategies authType = some strategy)
    (h1 : strategy.ValidateCredentials c = none)
    (h2 : strategy.Authenticate c = .ok claims)
    (h3 : strategy.GetTokenLifetime c = .ok lifetime)
    (h4 : s.tokenService.GenerateToken claims lifetime = .ok token)
    (h5 : s.cacheService.SetCredentials token c.MHCredentials lifetime = some e) :
    Login s c = ⟨"", some e, fullTrace c authType claims lifetime token⟩ := by
  rw [Login_of_strategy s c authType strategy hc hrepo hst]
  simp only [h1, h2, h3, h4, h5]

/-- `Login` when every step succeeds. -/
theorem Login_ok (s : AuthService Claims User Branch) (c : AuthCredentials)
    (authType : String) (strategy : AuthStrategy Claims) (claims : Claims) (lifetime : Int)
    (token : String)
    (hc : credentialsExists c = true)
    (hrepo : s.authRepo.GetAuthTypeByApiKey c.APIKey = .ok authType)
    (hst : s.strategies authType = some strategy)
    (h1 : strategy.ValidateCredentials c = none)
    (h2 : strategy.Authenticate c = .ok claims)
    (h3 : strategy.GetTokenLifetime c = .ok lifetime)
    (h4 : s.tokenService.GenerateToken claims lifetime = .ok token)
    (h5 : s.cacheService.SetCredentials token c.MHCredentials lifetime = none) :
    Login s c = ⟨token, none, fullTrace c authType claims lifetime token⟩ := by
  rw [Login_of_strategy s c authType strategy hc hrepo hst]
  simp only [h1, h2, h3, h4, h5]

/-- A `Login` without error ran every step successfully; any other `Login` returns the
empty token. -/
theorem Login_cases (s : AuthService Claims User Branch) (c : AuthCredentials) :
    (∃ authType strategy claims lifetime token,
      credentialsExists c = true ∧
      s.authRepo.GetAuthTypeByApiKey c.APIKey = .ok authType ∧
      s.strategies authType = some strategy ∧
      strategy.ValidateCredentials c = none ∧
      strategy.Authenticate c = .ok claims ∧
      strategy.GetTokenLifetime c = .ok lifetime ∧
      s.tokenService.GenerateToken claims lifetime = .ok token ∧
      s.cacheService.SetCredentials token c.MHCredentials lifetime = none ∧
      Login s c = ⟨token, none, fullTrace c authType claims lifetime token⟩) ∨
    ((Login s c).token = "" ∧ (Login s c).err ≠ none) := by
  by_cases hc : credentialsExists c = true
  · cases hrepo : s.authRepo.GetAuthTypeByApiKey c.APIKey with
    | error e =>
      right
      rw [Login_lookup_error s c e hc hrepo]
      split <;> exact ⟨rfl, by simp⟩
    | ok authType =>
      cases hst : s.strategies authType with
      | none => right; rw [Login_no_strategy s c authType hc hrepo hst]; exact ⟨rfl, by simp⟩
      | some strategy =>
        cases h1 : strategy.ValidateCredentials c with
        | some e =>
          right; rw [Login_validate_error s c authType strategy e hc hrepo hst h1]
          exact ⟨rfl, by simp⟩
        | none =>
          cases h2 : strategy.Authenticate c with
          | error e =>
            right; rw [Login_authenticate_error s c authType strategy e hc hrepo hst h1 h2]
            exact ⟨rfl, by simp⟩
          | ok claims =>
            cases h3 : strategy.GetTokenLifetime c with
            | error e =>
              right
              rw [Login_lifetime_error s c authType strategy claims e hc hrepo hst h1 h2 h3]
              exact ⟨rfl, by simp⟩
            | ok lifetime =>
              cases h4 : s.tokenService.GenerateToken claims lifetime with
              | error e =>
                right
                rw [Login_token_error s c authType strategy claims lifetime e hc hrepo hst h1 h2
                  h3 h4]
                exact ⟨rfl, by simp⟩
              | ok token =>
                cases h5 : s.cacheService.SetCredentials token c.MHCredentials lifetime with
                | some e =>
                  right
                  rw [Login_cache_error s c authType strategy claims lifetime token e hc hrepo
                    hst h1 h2 h3 h4 h5]
                  exact ⟨rfl, by simp⟩
                | none =>
                  left
                  exact ⟨authType, strategy, claims, lifetime, token, hc, rfl, hst, h1, h2, h3,
                    h4, h5, Login_ok s c authType strategy claims lifetime token hc hrepo hst h1
                      h2 h3 h4 h5⟩
  · right; rw [Login_missing s c hc]; exact ⟨rfl, by simp⟩

/-- The sample service logs the sample credentials in. -/
theorem sampleService_login :
    Login (sampleService (.ok "standard") none) sampleCredentials
      = ⟨"token-1", none, fullTrace sampleCredentials "standard" "claims-1" 3600 "token-1"⟩ :=
  Login_ok _ _ "standard" sampleStrategy "claims-1" 3600 "token-1" (by decide) rfl rfl rfl rfl
    rfl rfl rfl

/-- The duplicate-key test, once the invalid-data sentinel is excluded. -/
theorem isDuplicatedEntryErr_eq (X : Externals) (e : GoError)
    (hinv : errorsIs .ErrInvalidData e = false) :
    isDuplicatedEntryErr X e =
      (Contains (X.ToLower (e.Error X)) "duplicate entry" ||
        Contains (X.ToLower (e.Error X)) "unique constraint" ||
        Contains (X.ToLower (e.Error X)) "violates unique" ||
        Contains (X.ToLower (e.Error X)) "unique key constraint") := by
  unfold isDuplicatedEntryErr
  simp only [hinv, Bool.false_or]

/-! ## The claims -/

/-- Claim C15: for credentials with an empty API key, API secret, upstream username or
upstream password, or without upstream credentials, `Login` returns the empty token and
the `MissingCredentials` error and makes no call to any collaborator. -/
theorem Login_missing_credentials (s : AuthService Claims User Branch) (c : AuthCredentials)
    (h : c.APIKey = "" ∨ c.APISecret = "" ∨ c.MHCredentials = none ∨
      ∃ mh, c.MHCredentials = some mh ∧ (mh.Username = "" ∨ mh.Password = "")) :
    Login s c =
      ⟨"", some (NewFormattedGeneralServiceError "AuthService" "Login" "MissingCredentials" []),
        []⟩ := by
  have hc : ¬ credentialsExists c = true := by
    rw [credentialsExists_eq_true_iff]
    rintro ⟨h1, h2, mh, h3, h4, h5⟩
    rcases h with h | h | h | ⟨mh2, h, h6⟩
    · exact h1 h
    · exact h2 h
    · rw [h] at h3; cases h3
    · rw [h] at h3
      cases h3
      rcases h6 with h6 | h6
      · exact h4 h6
      · exact h5 h6
  unfold Login
  rw [if_pos hc]

/-- Claim C15, witness: every field set except an empty API secret. -/
theorem Login_missing_credentials_witness :
    Login (sampleService (.ok "standard") none) emptySecretCredentials =
      ⟨"", some (NewFormattedGeneralServiceError "AuthService" "Login" "MissingCredentials" []),
        []⟩ :=
  Login_missing_credentials (sampleService (.ok "standard") none) emptySecretCredentials (Or.inr (Or.inl rfl))

/-- Claim C16: for complete credentials, when the lookup of the auth type fails with an
error in which `errors.Is` finds the user-not-found sentinel, `Login` returns the empty
token and the `NotFound` service error; when it fails with any other error, `Login`
returns the empty token and that error itself.  In both cases the lookup is the only
call made: no token is generated and nothing is written to the cache. -/
theorem Login_lookup_failure (s : AuthService Claims User Branch) (c : AuthCredentials) (e : GoError)
    (hc : credentialsExists c = true)
    (hrepo : s.authRepo.GetAuthTypeByApiKey c.APIKey = .error e) :
    (errorsIs .ErrUserNotFound e = true →
      Login s c =
        ⟨"", some (NewFormattedGeneralServiceError "AuthService" "Login" "NotFound" []),
          [.GetAuthTypeByApiKey c.APIKey]⟩) ∧
    (errorsIs .ErrUserNotFound e = false →
      Login s c = ⟨"", some e, [.GetAuthTypeByApiKey c.APIKey]⟩) := by
  unfold Login
  rw [if_neg (not_not.mpr hc)]
  simp only [hrepo]
  constructor
  · intro h; rw [if_pos h]
  · intro h; rw [if_neg (by simp [h])]

/-- Claim C16, witness: a wrapped user-not-found sentinel, and a connection error. -/
theorem Login_lookup_failure_witness :
    Login (sampleService (.error (.wrapped "lookup: user not found" .ErrUserNotFound)) none)
        sampleCredentials =
      ⟨"", some (NewFormattedGeneralServiceError "AuthService" "Login" "NotFound" []),
        [.GetAuthTypeByApiKey sampleCredentials.APIKey]⟩ ∧
    Login (sampleService (.error connectionError) none) sampleCredentials =
      ⟨"", some connectionError, [.GetAuthTypeByApiKey sampleCredentials.APIKey]⟩ :=
  ⟨(Login_lookup_failure (sampleService (.error (.wrapped "lookup: user not found" .ErrUserNotFound)) none)
      sampleCredentials _ (by decide) rfl).1 (by decide),
   (Login_lookup_failure (sampleService (.error connectionError) none) sampleCredentials _ (by decide) rfl).2
      (by decide)⟩

/-- Claim C17: a `Login` that returns a token without error ran every step: the token is
the one generated by the token service for the claims of the strategy's `Authenticate`
with the lifetime of its `GetTokenLifetime`, and the cache received exactly one
`SetCredentials` call, with that token, the caller's upstream credentials and that
lifetime.  Conversely a `Login` with an error returns the empty token, and a failure of
the strategy lookup, the credential validation, the authentication, the lifetime, the
token generation or the cache write makes `Login` return the empty token with an error. -/
theorem Login_success_and_failure (s : AuthService Claims User Branch) (c : AuthCredentials) :
    (∀ t, (Login s c).err = none → (Login s c).token = t →
      ∃ authType strategy claims lifetime,
        s.authRepo.GetAuthTypeByApiKey c.APIKey = .ok authType ∧
        s.strategies authType = some strategy ∧
        strategy.ValidateCredentials c = none ∧
        strategy.Authenticate c = .ok claims ∧
        strategy.GetTokenLifetime c = .ok lifetime ∧
        s.tokenService.GenerateToken claims lifetime = .ok t ∧
        s.cacheService.SetCredentials t c.MHCredentials lifetime = none ∧
        (Login s c).calls = fullTrace c authType claims lifetime t ∧
        (Login s c).calls.filter Call.isSetCredentials
          = [.SetCredentials t c.MHCredentials lifetime]) ∧
    ((Login s c).err ≠ none → (Login s c).token = "") ∧
    (∀ authType, credentialsExists c = true →
      s.authRepo.GetAuthTypeByApiKey c.APIKey = .ok authType →
      (s.strategies authType = none →
        (Login s c).token = "" ∧
        (Login s c).err = some (NewFormattedGeneralServiceError "AuthService" "Login"
          "ServerError" [authType])) ∧
      (∀ strategy, s.strategies authType = some strategy →
        (∀ e, strategy.ValidateCredentials c = some e →
          (Login s c).token = "" ∧ (Login s c).err = some e) ∧
        (strategy.ValidateCredentials c = none →
          (∀ e, strategy.Authenticate c = .error e →
            (Login s c).token = "" ∧ (Login s c).err = some e) ∧
          (∀ claims, strategy.Authenticate c = .ok claims →
            (∀ e, strategy.GetTokenLifetime c = .error e →
              (Login s c).token = "" ∧ (Login s c).err = some e) ∧
            (∀ lifetime, strategy.GetTokenLifetime c = .ok lifetime →
              (∀ e, s.tokenService.GenerateToken claims lifetime = .error e →
                (Login s c).token = "" ∧ (Login s c).err = some e) ∧
              (∀ token e, s.tokenService.GenerateToken claims lifetime = .ok token →
                s.cacheService.SetCredentials token c.MHCredentials lifetime = some e →
                (Login s c).token = "" ∧ (Login s c).err = some e)))))) := by
  refine ⟨?_, ?_, ?_⟩
  · intro t herr htok
    rcases Login_cases s c with ⟨authType, strategy, claims, lifetime, token, -, hrepo, hst, h1,
      h2, h3, h4, h5, hL⟩ | ⟨-, hne⟩
    · rw [hL] at htok
      simp only at htok
      subst htok
      exact ⟨authType, strategy, claims, lifetime, hrepo, hst, h1, h2, h3, h4, h5,
        by rw [hL], by rw [hL]; rfl⟩
    · exact absurd herr hne
  · intro hne
    rcases Login_cases s c with ⟨authType, strategy, claims, lifetime, token, -, -, -, -, -, -,
      -, -, hL⟩ | ⟨htok, -⟩
    · rw [hL] at hne; exact absurd rfl hne
    · exact htok
  · intro authType hc hrepo
    refine ⟨fun hst => ?_, fun strategy hst => ⟨fun e h1 => ?_, fun h1 =>
      ⟨fun e h2 => ?_, fun claims h2 => ⟨fun e h3 => ?_, fun lifetime h3 =>
        ⟨fun e h4 => ?_, fun token e h4 h5 => ?_⟩⟩⟩⟩⟩
    · rw [Login_no_strategy s c authType hc hrepo hst]; exact ⟨rfl, rfl⟩
    · rw [Login_validate_error s c authType strategy e hc hrepo hst h1]; exact ⟨rfl, rfl⟩
    · rw [Login_authenticate_error s c authType strategy e hc hrepo hst h1 h2]
      exact ⟨rfl, rfl⟩
    · rw [Login_lifetime_error s c authType strategy claims e hc hrepo hst h1 h2 h3]
      exact ⟨rfl, rfl⟩
    · rw [Login_token_error s c authType strategy claims lifetime e hc hrepo hst h1 h2 h3 h4]
      exact ⟨rfl, rfl⟩
    · rw [Login_cache_error s c authType strategy claims lifetime token e hc hrepo hst h1 h2 h3
        h4 h5]
      exact ⟨rfl, rfl⟩

/-- Claim C17, witness: the sample service issues "token-1" and caches the upstream
credentials under it for 3600. -/
theorem Login_success_and_failure_witness :
    ∃ authType strategy claims lifetime,
      (sampleService (.ok "standard") none).authRepo.GetAuthTypeByApiKey sampleCredentials.APIKey
        = .ok authType ∧
      (sampleService (.ok "standard") none).strategies authType = some strategy ∧
      strategy.ValidateCredentials sampleCredentials = none ∧
      strategy.Authenticate sampleCredentials = .ok claims ∧
      strategy.GetTokenLifetime sampleCredentials = .ok lifetime ∧
      (sampleService (.ok "standard") none).tokenService.GenerateToken claims lifetime
        = .ok "token-1" ∧
      (sampleService (.ok "standard") none).cacheService.SetCredentials "token-1"
        sampleCredentials.MHCredentials lifetime = none ∧
      (Login (sampleService (.ok "standard") none) sampleCredentials).calls
        = fullTrace sampleCredentials authType claims lifetime "token-1" ∧
      (Login (sampleService (.ok "standard") none) sampleCredentials).calls.filter
          Call.isSetCredentials
        = [.SetCredentials "token-1" sampleCredentials.MHCredentials lifetime] :=
  (Login_success_and_failure (sampleService (.ok "standard") none) sampleCredentials).1 "token-1"
    (by rw [sampleService_login]) (by rw [sampleService_login])

/-- Claim C18: for an error in which `errors.Is` does not find the invalid-data sentinel
and whose lower-cased text contains a duplicate-key marker, `handleGormError` returns the
`DuplicatedEntry` service error of the operation naming the first of "nit", "email",
"phone", "nrc" that occurs in the text itself; `Create`, `GetByNIT` and
`GetBranchByBranchID` return what `handleGormError` returns for the repository's error. -/
theorem handleGormError_duplicated_entry (X : Externals) (op : String) (e : GoError)
    (hinv : errorsIs .ErrInvalidData e = false)
    (hdup : Contains (X.ToLower (e.Error X)) "duplicate entry" = true ∨
      Contains (X.ToLower (e.Error X)) "unique constraint" = true ∨
      Contains (X.ToLower (e.Error X)) "violates unique" = true ∨
      Contains (X.ToLower (e.Error X)) "unique key constraint" = true) :
    (Contains (e.Error X) "nit" = true →
      handleGormError X op e
        = NewFormattedGeneralServiceError "AuthService" op "DuplicatedEntry" ["nit"]) ∧
    (Contains (e.Error X) "nit" = false → Contains (e.Error X) "email" = true →
      handleGormError X op e
        = NewFormattedGeneralServiceError "AuthService" op "DuplicatedEntry" ["email"]) ∧
    (Contains (e.Error X) "nit" = false → Contains (e.Error X) "email" = false →
      Contains (e.Error X) "phone" = true →
      handleGormError X op e
        = NewFormattedGeneralServiceError "AuthService" op "DuplicatedEntry" ["phone"]) ∧
    (Contains (e.Error X) "nit" = false → Contains (e.Error X) "email" = false →
      Contains (e.Error X) "phone" = false → Contains (e.Error X) "nrc" = true →
      handleGormError X op e
        = NewFormattedGeneralServiceError "AuthService" op "DuplicatedEntry" ["nrc"]) ∧
    (∀ (Claims User Branch : Type) (s : AuthService Claims User Branch),
      (∀ user, s.authRepo.Create user = some e →
        Create X s user = some (handleGormError X "Create" e)) ∧
      (∀ nit, s.authRepo.GetByNIT nit = .error e →
        GetByNIT X s nit = .error (handleGormError X "GetByNIT" e)) ∧
      (∀ branchID, s.authRepo.GetBranchByBranchID branchID = .error e →
        GetBranchByBranchID X s branchID
          = .error (handleGormError X "GetBranchByBranchID" e))) := by
  have hd : isDuplicatedEntryErr X e = true := by
    rw [isDuplicatedEntryErr_eq X e hinv]
    rcases hdup with h | h | h | h <;> simp [h]
  have hi : ¬ errorsIs .ErrInvalidData e = true := by simp [hinv]
  refine ⟨?_, ?_, ?_, ?_, ?_⟩
  · intro h1
    unfold handleGormError
    rw [if_neg hi, if_pos hd]
    simp only [h1, if_true]
  · intro h1 h2
    unfold handleGormError
    rw [if_neg hi, if_pos hd]
    simp only [h1, h2, if_true, Bool.false_eq_true, if_false]
  · intro h1 h2 h3
    unfold handleGormError
    rw [if_neg hi, if_pos hd]
    simp only [h1, h2, h3, if_true, Bool.false_eq_true, if_false]
  · intro h1 h2 h3 h4
    unfold handleGormError
    rw [if_neg hi, if_pos hd]
    simp only [h1, h2, h3, h4, if_true, Bool.false_eq_true, if_false]
  · intro Claims User Branch s
    refine ⟨fun user h => ?_, fun nit h => ?_, fun branchID h => ?_⟩
    · unfold Create; rw [h]
    · unfold GetByNIT; rw [h]
    · unfold GetBranchByBranchID; rw [h]

/-- Claim C18, witness: a MySQL duplicate-entry error on the `nit` key. -/
theorem handleGormError_duplicated_entry_witness :
    handleGormError sampleExternals "Create" duplicateNitError
      = NewFormattedGeneralServiceError "AuthService" "Create" "DuplicatedEntry" ["nit"] :=
  (handleGormError_duplicated_entry sampleExternals "Create" duplicateNitError (by decide) (Or.inl (by decide))).1
    (by decide)

/-- Claim C19: an error in which `errors.Is` does not find the invalid-data sentinel and
whose lower-cased text contains no duplicate-key marker is returned unchanged by
`handleGormError`, whatever the operation and the text; and `Create` returns nil exactly
when the repository's `Create` does. -/
theorem handleGormError_passthrough (X : Externals) (op : String) (e : GoError)
    (hinv : errorsIs .ErrInvalidData e = false)
    (hno : Contains (X.ToLower (e.Error X)) "duplicate entry" = false ∧
      Contains (X.ToLower (e.Error X)) "unique constraint" = false ∧
      Contains (X.ToLower (e.Error X)) "violates unique" = false ∧
      Contains (X.ToLower (e.Error X)) "unique key constraint" = false) :
    handleGormError X op e = e ∧
    (∀ (Claims User Branch : Type) (s : AuthService Claims User Branch) (user : User),
      Create X s user = none ↔ s.authRepo.Create user = none) := by
  have hd : ¬ isDuplicatedEntryErr X e = true := by
    rw [isDuplicatedEntryErr_eq X e hinv]
    simp [hno.1, hno.2.1, hno.2.2.1, hno.2.2.2]
  have hi : ¬ errorsIs .ErrInvalidData e = true := by simp [hinv]
  constructor
  · unfold handleGormError
    rw [if_neg hi, if_neg hd]
  · intro Claims User Branch s user
    unfold Create
    cases s.authRepo.Create user <;> simp

/-- Claim C19, witness: a connection error whose text contains "nit". -/
theorem handleGormError_passthrough_witness :
    Contains (connectionError.Error sampleExternals) "nit" = true ∧
      handleGormError sampleExternals "Create" connectionError = connectionError :=
  ⟨by decide,
    (handleGormError_passthrough sampleExternals "Create" connectionError (by decide)
      ⟨by decide, by decide, by decide, by decide⟩).1⟩

end Auth

namespace Retention

/-! ## Auxiliary lemmas -/

/-- The loop of `IsAllPhysical` started from any value of the flag. -/
theorem foldl_flag (items : List RetentionItem) (b : Bool) :
    items.foldl
        (fun isAllPhysical item => if item.DocumentType = 2 then false else isAllPhysical) b
      = (b && decide (∀ item ∈ items, item.DocumentType ≠ 2)) := by
  induction items generalizing b with
  | nil => simp
  | cons x xs ih =>
    simp only [List.foldl_cons, ih]
    by_cases h : x.DocumentType = 2
    · simp [h]
    · simp [h]

/-- An item list with a document type 2 in second position. -/
theorem IsAllPhysical_mixed : IsAllPhysical ⟨[⟨1⟩, ⟨2⟩, ⟨1⟩]⟩ = false := by decide

/-- The method holds exactly when no item has document type 2. -/
theorem IsAllPhysical_eq_true_iff (i : InputRetentionData) :
    IsAllPhysical i = true ↔ ∀ item ∈ i.RetentionItems, item.DocumentType ≠ 2 := by
  unfold IsAllPhysical
  rw [foldl_flag]
  simp

/-! ## The claims -/

/-- Claim C22: `IsAllPhysical` returns true if and only if no retention item has a
`DocumentType` value equal to 2; it returns true for an empty item list, and its result
is the same for every reordering of the items. -/
theorem IsAllPhysical_iff (i : InputRetentionData) :
    (IsAllPhysical i = true ↔ ∀ item ∈ i.RetentionItems, item.DocumentType ≠ 2) ∧
    IsAllPhysical ⟨[]⟩ = true ∧
    (∀ items : List RetentionItem, items.Perm i.RetentionItems →
      IsAllPhysical ⟨items⟩ = IsAllPhysical i) := by
  refine ⟨IsAllPhysical_eq_true_iff i, rfl, fun items hp => ?_⟩
  rw [Bool.eq_iff_iff, IsAllPhysical_eq_true_iff, IsAllPhysical_eq_true_iff]
  exact ⟨fun h item hm => h item (hp.mem_iff.mpr hm), fun h item hm => h item (hp.mem_iff.mp hm)⟩

end Retention
